import Mathlib

/-!
# Verification of the Cobbler boot-configuration / autoinstall assembly engine

Shallow embedding of the append-line compiler (`cobbler/actions/buildiso/netboot.py`),
the standalone/airgapped boot-menu assembler (`cobbler/actions/buildiso/standalone.py`),
the AutoYaST document generator (`cobbler/autoinstall/generate/autoyast.py`) and the
template-type selection / post-render normalization of the template renderer
(`cobbler/templates/__init__.py`), together with theorems settling the frozen claims.

Python dictionaries are modelled as insertion-ordered association lists; the flat
"blended" configuration dictionary is modelled as a structure whose fields mirror the
key families the code accesses.  Code that can raise (`KeyError`, `IndexError`,
`TypeError`, `ValueError`, `RuntimeError`) is embedded in `Except String`.
-/

/-- A value stored under a key of the `kernel_options` mapping: a plain string, a
list of strings, or Python `None` (a bare flag option). -/
inductive KOptVal where
  | str (s : String)
  | list (l : List String)
  | flag
deriving DecidableEq, Repr

/-- `s.startswith(pre)`, computed on the character lists (used throughout so
the kernel can evaluate the embedding on concrete inputs). -/
def strStartsWith (s pre : String) : Bool := pre.toList.isPrefixOf s.toList

/-- Split a character list on a separator character, keeping empty segments. -/
def splitChar (sep : Char) : List Char → List (List Char)
  | [] => [[]]
  | c :: cs =>
    if c = sep then [] :: splitChar sep cs
    else
      match splitChar sep cs with
      | h :: t => (c :: h) :: t
      | [] => [[c]]

/-- Python `s.split(sep)` for a one-character separator. -/
def splitOnChar (sep : Char) (s : String) : List String :=
  (splitChar sep s.toList).map String.mk

/-- ASCII lowercase of one character. -/
def charLower (c : Char) : Char :=
  if 'A' ≤ c ∧ c ≤ 'Z' then Char.ofNat (c.toNat + 32) else c

/-- Python `str.lower()` (ASCII letters). -/
def pyLower (s : String) : String := String.mk (s.toList.map charLower)

/-- Ordered association-list lookup (first binding wins), modelling `dict.get`. -/
def alGet {α : Type} : List (String × α) → String → Option α
  | [], _ => none
  | (k, v) :: rest, key => if k = key then some v else alGet rest key

/-- Removing a key from a dict (`del d[k]`); insertion order of the rest is kept. -/
def alDel {α : Type} (m : List (String × α)) (key : String) : List (String × α) :=
  m.filter (fun p => p.1 ≠ key)

/-- `d[k] = v` on a dict: an existing binding is updated in place, a new one is
appended at the end (Python insertion order). -/
def alSet {α : Type} (m : List (String × α)) (key : String) (v : α) :
    List (String × α) :=
  if (alGet m key).isSome then
    m.map (fun p => if p.1 = key then (key, v) else p)
  else
    m ++ [(key, v)]

/-- Python `repr` of a string as it appears when a list of strings is interpolated
into an f-string: single quotes, switching to double quotes when the string contains
a single quote but no double quote, escaping as `repr` does for the common cases. -/
def pyReprStr (s : String) : String :=
  let esc : String :=
    s.toList.foldl
      (fun acc c =>
        if c = '\\' then acc ++ "\\\\"
        else if c = '\n' then acc ++ "\\n"
        else if c = '\t' then acc ++ "\\t"
        else if c = '\r' then acc ++ "\\r"
        else acc.push c)
      ""
  if s.toList.contains '\'' ∧ ¬ s.toList.contains '"' then
    "\"" ++ esc ++ "\""
  else
    "'" ++ (esc.toList.foldl
      (fun acc c => if c = '\'' then acc ++ "\\'" else acc.push c) "") ++ "'"

/-- Python `str()` of a kernel-option value, as interpolated by an f-string:
a string stays itself, a list renders as its `repr`, `None` renders as `"None"`. -/
def pyStr : KOptVal → String
  | .str s => s
  | .list l => "[" ++ String.intercalate ", " (l.map pyReprStr) ++ "]"
  | .flag => "None"

/-- Python string concatenation `pre + v`: raises `TypeError` unless `v` is a
string.  (`None` never reaches a concatenation site in the embedded code: the
builder converts a `None` override into an unset field.) -/
def pyStrConcat (pre : String) (v : KOptVal) : Except String String :=
  match v with
  | .str s => .ok (pre ++ s)
  | _ => .error "TypeError: can only concatenate str"

/-- One interface record of a system, as it appears under `data["interfaces"]`:
the `management` flag, the `interface_type` discriminator and the
`interface_master` back-reference consulted by the append-line builder. -/
structure Iface where
  management : Bool
  interface_type : String
  interface_master : String
deriving DecidableEq, Repr

/-- The blended (resolved) configuration dictionary as consumed by
`AppendLineBuilder`.  Each field mirrors one key (or flattened key family) of the
flat Python dict `data`: an `Option` field set to `none` models that key being
absent from the dict; the four association-list fields model the flattened
per-interface keys `ip_address_<i>`, `netmask_<i>`, `mac_address_<i>` and
`interface_master_<i>`. -/
structure ResolvedData where
  kernel_options : Option (List (String × KOptVal)) := none
  autoinstall : Option String := none
  proxy : Option String := none
  server : Option String := none
  http_port : Option String := none
  gateway : Option String := none
  name_servers : Option KOptVal := none
  interfaces : Option (List (String × Iface)) := none
  ip_address : List (String × String) := []
  netmask : List (String × String) := []
  mac_address : List (String × String) := []
  interface_master : List (String × String) := []
  repos : List String := []
deriving DecidableEq, Repr

/-- A distribution item: the attributes `netboot.py` reads. -/
structure Distro where
  name : String
  breed : String
  os_version : String
  kernel : String := ""
  initrd : String := ""
deriving DecidableEq, Repr

/-- A system item: the attributes `_generate_append_debian` reads. -/
structure SystemItem where
  name : String
  hostname : String
deriving DecidableEq, Repr

/-- The mutable state of one `AppendLineBuilder` instance
(`netboot.py` lines 26-35). -/
structure AppendBuilder where
  append_line : String
  data : ResolvedData
  distro_name : String
  dist : Option Distro
  system_interface : Option KOptVal
  system_ip : Option KOptVal
  system_netmask : Option KOptVal
  system_gw : Option KOptVal
  system_dns : Option KOptVal
deriving DecidableEq, Repr

/-- `AppendLineBuilder.__init__(distro_name, data)`. -/
def AppendBuilder.init (distro_name : String) (data : ResolvedData) : AppendBuilder :=
  ⟨"", data, distro_name, none, none, none, none, none, none⟩

/-- A required dict lookup `data[key]`: raises `KeyError` when the key is absent. -/
def req {α : Type} (v : Option α) (key : String) : Except String α :=
  match v with
  | some x => .ok x
  | none => .error ("KeyError: " ++ key)

/-- `self.data["kernel_options"]` (a required lookup). -/
def AppendBuilder.getKopts (b : AppendBuilder) : Except String (List (String × KOptVal)) :=
  req b.data.kernel_options "kernel_options"

/-- `self.data.get("proxy", "")`. -/
def AppendBuilder.proxyD (b : AppendBuilder) : String := b.data.proxy.getD ""

/-- The common override pattern of `_generate_static_ip_boot_*`
(`netboot.py` lines 145-211): if `kernel_options[key]` is present and not the
empty string, store it in the given builder field and delete the key; a Python
`None` value is stored as `None`, i.e. the field stays unset, but the key is
still deleted.  Raises `KeyError` when `kernel_options` itself is absent. -/
def koptOverride (b : AppendBuilder) (key : String)
    (set : AppendBuilder → Option KOptVal → AppendBuilder) :
    Except String AppendBuilder := do
  let ko ← b.getKopts
  match alGet ko key with
  | some v =>
    if v ≠ .str "" then
      .ok (set { b with data := { b.data with kernel_options := some (alDel ko key) } }
        (match v with | .flag => none | w => some w))
    else
      .ok b
  | none => .ok b

/-- `AppendLineBuilder._generate_static_ip_boot_interface` (lines 122-143).
For redhat a value equal to `"bootif"` is reset to `None` before the key is
deleted. -/
def generateStaticIpBootInterface (b : AppendBuilder) : Except String AppendBuilder :=
  match b.dist with
  | none => .ok b
  | some dist =>
    if dist.breed = "redhat" then do
      let ko ← b.getKopts
      match alGet ko "ksdevice" with
      | some v =>
        if v ≠ .str "" then
          let si : Option KOptVal :=
            match v with
            | .flag => none
            | .str s => if s = "bootif" then none else some (.str s)
            | w => some w
          .ok { b with system_interface := si,
                       data := { b.data with kernel_options := some (alDel ko "ksdevice") } }
        else
          .ok b
      | none => .ok b
    else if dist.breed = "suse" then
      koptOverride b "netdevice" (fun b' v => { b' with system_interface := v })
    else if dist.breed = "debian" ∨ dist.breed = "ubuntu" then
      koptOverride b "netcfg/choose_interface" (fun b' v => { b' with system_interface := v })
    else
      .ok b

/-- `AppendLineBuilder._generate_static_ip_boot_ip` (lines 145-162). -/
def generateStaticIpBootIp (b : AppendBuilder) : Except String AppendBuilder :=
  match b.dist with
  | none => .ok b
  | some dist =>
    if dist.breed = "redhat" then
      koptOverride b "ip" (fun b' v => { b' with system_ip := v })
    else if dist.breed = "suse" then
      koptOverride b "hostip" (fun b' v => { b' with system_ip := v })
    else if dist.breed = "debian" ∨ dist.breed = "ubuntu" then
      koptOverride b "netcfg/get_ipaddress" (fun b' v => { b' with system_ip := v })
    else
      .ok b

/-- `AppendLineBuilder._generate_static_ip_boot_mask` (lines 164-177). -/
def generateStaticIpBootMask (b : AppendBuilder) : Except String AppendBuilder :=
  match b.dist with
  | none => .ok b
  | some dist =>
    if dist.breed = "suse" ∨ dist.breed = "redhat" then
      koptOverride b "netmask" (fun b' v => { b' with system_netmask := v })
    else if dist.breed = "debian" ∨ dist.breed = "ubuntu" then
      koptOverride b "netcfg/get_netmask" (fun b' v => { b' with system_netmask := v })
    else
      .ok b

/-- `AppendLineBuilder._generate_static_ip_boot_gateway` (lines 179-192). -/
def generateStaticIpBootGateway (b : AppendBuilder) : Except String AppendBuilder :=
  match b.dist with
  | none => .ok b
  | some dist =>
    if dist.breed = "suse" ∨ dist.breed = "redhat" then
      koptOverride b "gateway" (fun b' v => { b' with system_gw := v })
    else if dist.breed = "debian" ∨ dist.breed = "ubuntu" then
      koptOverride b "netcfg/get_gateway" (fun b' v => { b' with system_gw := v })
    else
      .ok b

/-- `AppendLineBuilder._generate_static_ip_boot_dns` (lines 194-211). -/
def generateStaticIpBootDns (b : AppendBuilder) : Except String AppendBuilder :=
  match b.dist with
  | none => .ok b
  | some dist =>
    if dist.breed = "redhat" then
      koptOverride b "dns" (fun b' v => { b' with system_dns := v })
    else if dist.breed = "suse" then
      koptOverride b "nameserver" (fun b' v => { b' with system_dns := v })
    else if dist.breed = "debian" ∨ dist.breed = "ubuntu" then
      koptOverride b "netcfg/get_nameservers" (fun b' v => { b' with system_dns := v })
    else
      .ok b

/-- `AppendLineBuilder._generate_static_ip_boot_options` (lines 213-222). -/
def generateStaticIpBootOptions (b : AppendBuilder) : Except String AppendBuilder := do
  let b ← generateStaticIpBootInterface b
  let b ← generateStaticIpBootIp b
  let b ← generateStaticIpBootMask b
  let b ← generateStaticIpBootGateway b
  generateStaticIpBootDns b

/-- The slave interface types recognized by `_adjust_interface_config`. -/
def slaveTypes : List String := ["bond_slave", "bridge_slave", "bonded_bridge_slave"]

/-- `AppendLineBuilder._adjust_interface_config` (lines 297-349).
The two `if` branches at lines 323 and 347 have mutually exclusive conditions
(`(1, 0)` versus `(0, 1)` candidate counts), so embedding them sequentially is
faithful.  `slave_ints[0]` on an empty list raises `IndexError`; the lookups of
`interface_master_<slave>`, `ip_address_<master>` and `netmask_<master>` are
unguarded dict indexing and raise `KeyError` when absent.  The
`interface_master_<slave>` key is read twice in the source (lines 341 and 344)
with the same result; the embedding reads it once. -/
def adjustInterfaceConfig (b : AppendBuilder) : Except String AppendBuilder :=
  match b.system_interface with
  | some _ => .ok b
  | none => do
    let ifaces ← req b.data.interfaces "interfaces"
    let mgmt_ints : List String :=
      (ifaces.filter (fun p =>
        p.2.management ∧ p.2.interface_type ∉ ["bond", "bridge"] ++ slaveTypes)).map Prod.fst
    let mgmt_ints_multi : List String :=
      (ifaces.filter (fun p =>
        p.2.management ∧ p.2.interface_type ∈ ["bond", "bridge"])).map Prod.fst
    if mgmt_ints_multi.length = 1 ∧ mgmt_ints.length = 0 then do
      let slave_ints : List String :=
        (ifaces.filter (fun p =>
          p.2.interface_type ∈ slaveTypes ∧
          p.2.interface_master = mgmt_ints_multi.headD "")).map Prod.fst
      let chosen ←
        if "eth0" ∈ slave_ints then
          pure "eth0"
        else
          match slave_ints with
          | [] => Except.error "IndexError: list index out of range"
          | s :: _ => pure s
      let master ← req (alGet b.data.interface_master chosen) ("interface_master_" ++ chosen)
      let ip ← req (alGet b.data.ip_address master) ("ip_address_" ++ master)
      let nm ← req (alGet b.data.netmask master) ("netmask_" ++ master)
      .ok { b with system_interface := some (.str chosen),
                   system_ip := some (.str ip),
                   system_netmask := some (.str nm) }
    else if mgmt_ints.length = 1 ∧ mgmt_ints_multi.length = 0 then
      .ok { b with system_interface := some (.str (mgmt_ints.headD "")) }
    else
      .ok b

/-- `AppendLineBuilder._get_tcp_ip_config` (lines 351-368).
`self.data.get("name_servers")` has no default; when the key is absent the
comparison with `""` succeeds and the subsequent `self.data["name_servers"]`
indexing raises `KeyError`.  A present-but-`None` value passes the comparison
and stores `None`, leaving the field unset. -/
def getTcpIpConfig (b : AppendBuilder) : Except String AppendBuilder := do
  let b ←
    match b.system_ip, b.system_interface with
    | none, some iv => do
      -- "ip_address_" + self.system_interface: TypeError unless a string
      let _ ← pyStrConcat "ip_address_" iv
      match iv with
      | .str key =>
        if (alGet b.data.ip_address key).getD "" ≠ "" then
          pure { b with system_ip := some (.str ((alGet b.data.ip_address key).getD "")) }
        else
          pure b
      | _ => Except.error "TypeError: can only concatenate str"
    | _, _ => pure b
  let b ←
    match b.system_netmask, b.system_interface with
    | none, some iv => do
      -- "netmask_" + self.system_interface: TypeError unless a string
      let _ ← pyStrConcat "netmask_" iv
      match iv with
      | .str key =>
        if (alGet b.data.netmask key).getD "" ≠ "" then
          pure { b with system_netmask := some (.str ((alGet b.data.netmask key).getD "")) }
        else
          pure b
      | _ => Except.error "TypeError: can only concatenate str"
    | _, _ => pure b
  let b :=
    match b.system_gw with
    | none => if b.data.gateway.getD "" ≠ "" then
        { b with system_gw := some (.str (b.data.gateway.getD "")) }
      else b
    | some _ => b
  match b.system_dns with
  | some _ => .ok b
  | none =>
    match b.data.name_servers with
    | none => .error "KeyError: name_servers"
    | some v =>
      if v = .str "" then .ok b
      else if v = .flag then .ok b
      else .ok { b with system_dns := some v }

/-- `AppendLineBuilder._system_int_append_line` (lines 37-58).  The key
`"mac_address_" + self.system_interface` is concatenated before the breed
dispatch, so a non-string interface value raises `TypeError` for every breed. -/
def systemIntAppendLine (b : AppendBuilder) : Except String AppendBuilder :=
  match b.dist, b.system_interface with
  | some dist, some iv => do
    let iname ← pyStrConcat "" iv
    let mac := (alGet b.data.mac_address iname).getD ""
    if dist.breed = "suse" then
      if mac ≠ "" then
        .ok { b with append_line := b.append_line ++ " netdevice=" ++ pyLower mac }
      else
        .ok { b with append_line := b.append_line ++ " netdevice=" ++ iname }
    else if dist.breed = "redhat" then
      if mac ≠ "" then
        .ok { b with append_line := b.append_line ++ " ksdevice=" ++ mac }
      else
        .ok { b with append_line := b.append_line ++ " ksdevice=" ++ iname }
    else if dist.breed = "ubuntu" ∨ dist.breed = "debian" then
      .ok { b with append_line := b.append_line ++ " netcfg/choose_interface=" ++ iname }
    else
      .ok b
  | _, _ => .ok b

/-- `AppendLineBuilder._system_ip_append_line` (lines 60-72). -/
def systemIpAppendLine (b : AppendBuilder) : AppendBuilder :=
  match b.dist, b.system_ip with
  | some dist, some ip =>
    if dist.breed = "suse" then
      { b with append_line := b.append_line ++ " hostip=" ++ pyStr ip }
    else if dist.breed = "redhat" then
      { b with append_line := b.append_line ++ " ip=" ++ pyStr ip }
    else if dist.breed = "ubuntu" ∨ dist.breed = "debian" then
      { b with append_line := b.append_line ++ " netcfg/get_ipaddress=" ++ pyStr ip }
    else b
  | _, _ => b

/-- `AppendLineBuilder._system_mask_append_line` (lines 74-84). -/
def systemMaskAppendLine (b : AppendBuilder) : AppendBuilder :=
  match b.dist, b.system_netmask with
  | some dist, some nm =>
    if dist.breed = "suse" ∨ dist.breed = "redhat" then
      { b with append_line := b.append_line ++ " netmask=" ++ pyStr nm }
    else if dist.breed = "ubuntu" ∨ dist.breed = "debian" then
      { b with append_line := b.append_line ++ " netcfg/get_netmask=" ++ pyStr nm }
    else b
  | _, _ => b

/-- `AppendLineBuilder._system_gw_append_line` (lines 86-96). -/
def systemGwAppendLine (b : AppendBuilder) : AppendBuilder :=
  match b.dist, b.system_gw with
  | some dist, some gw =>
    if dist.breed = "suse" ∨ dist.breed = "redhat" then
      { b with append_line := b.append_line ++ " gateway=" ++ pyStr gw }
    else if dist.breed = "ubuntu" ∨ dist.breed = "debian" then
      { b with append_line := b.append_line ++ " netcfg/get_gateway=" ++ pyStr gw }
    else b
  | _, _ => b

/-- `AppendLineBuilder._system_dns_append_line` (lines 98-120): a list value is
comma-joined and skipped when the join is empty; other breeds than the three
families emit nothing. -/
def systemDnsAppendLine (exclude_dns : Bool) (b : AppendBuilder) : AppendBuilder :=
  match b.dist, b.system_dns with
  | some dist, some dns =>
    if ¬ exclude_dns then
      let key? : Option String :=
        if dist.breed = "suse" then some "nameserver"
        else if dist.breed = "redhat" then some "dns"
        else if dist.breed = "ubuntu" ∨ dist.breed = "debian" then
          some "netcfg/get_nameservers"
        else none
      match key? with
      | none => b
      | some key =>
        match dns with
        | .list l =>
          let joined := String.intercalate "," l
          if joined ≠ "" then
            { b with append_line := b.append_line ++ " " ++ key ++ "=" ++ joined }
          else b
        | v => { b with append_line := b.append_line ++ " " ++ key ++ "=" ++ pyStr v }
    else b
  | _, _ => b

/-- `AppendLineBuilder._generate_append_redhat` (lines 224-240). -/
def generateAppendRedhat (b : AppendBuilder) : Except String AppendBuilder := do
  let b :=
    if b.proxyD ≠ "" then
      { b with append_line :=
          b.append_line ++ " proxy=" ++ b.proxyD ++ " http_proxy=" ++ b.proxyD }
    else b
  let ai ← req b.data.autoinstall "autoinstall"
  match b.dist with
  | some d =>
    if d.os_version ∈ ["rhel4", "rhel5", "rhel6", "fedora16"] then
      .ok { b with append_line := b.append_line ++ " ks=" ++ ai }
    else
      .ok { b with append_line := b.append_line ++ " inst.ks=" ++ ai }
  | none => .ok { b with append_line := b.append_line ++ " inst.ks=" ++ ai }

/-- `AppendLineBuilder._generate_append_debian` (lines 242-270). -/
def generateAppendDebian (system : SystemItem) (b : AppendBuilder) :
    Except String AppendBuilder :=
  match b.dist with
  | none => .ok b
  | some dist => do
    let ai ← req b.data.autoinstall "autoinstall"
    let b := { b with append_line :=
      b.append_line ++ " auto-install/enable=true url=" ++ ai ++
        " netcfg/disable_autoconfig=true" }
    let b :=
      if b.proxyD ≠ "" then
        { b with append_line := b.append_line ++ " mirror/http/proxy=" ++ b.proxyD }
      else b
    let src := if system.hostname ≠ "" then system.hostname else system.name
    let parts := splitOnChar '.' src
    let my_hostname := parts.headD ""
    let my_domain :=
      if parts.tail = [] then "local.lan" else String.intercalate "." parts.tail
    .ok { b with append_line :=
      b.append_line ++ " hostname=" ++ my_hostname ++ " domain=" ++ my_domain ++
        " suite=" ++ dist.os_version }

/-- The `else` branch of the `install` handling in `_generate_append_suse`
(lines 287-290): synthesize `install=<scheme>://<server>:<http_port>/cblr/links/<distro>`
from unguarded `data["server"]` / `data["http_port"]` lookups. -/
def suseSynthInstall (scheme : String) (distName : String) (b : AppendBuilder) :
    Except String AppendBuilder := do
  let srv ← req b.data.server "server"
  let port ← req b.data.http_port "http_port"
  .ok { b with append_line :=
    b.append_line ++ " install=" ++ scheme ++ "://" ++ srv ++ ":" ++ port ++
      "/cblr/links/" ++ distName }

/-- The `autoyast` handling shared by `_generate_append_suse` (lines 291-295) and
`generate_profile` (lines 433-439): a present non-empty `kernel_options["autoyast"]`
override is emitted and consumed, else ` autoyast=<autoinstall>` is emitted. -/
def suseAutoyastPart (b : AppendBuilder) : Except String AppendBuilder := do
  let ko ← b.getKopts
  match alGet ko "autoyast" with
  | some v =>
    if v ≠ .str "" then
      .ok { b with append_line := b.append_line ++ " autoyast=" ++ pyStr v,
                   data := { b.data with kernel_options := some (alDel ko "autoyast") } }
    else do
      let ai ← req b.data.autoinstall "autoinstall"
      .ok { b with append_line := b.append_line ++ " autoyast=" ++ ai }
  | none => do
    let ai ← req b.data.autoinstall "autoinstall"
    .ok { b with append_line := b.append_line ++ " autoyast=" ++ ai }

/-- `AppendLineBuilder._generate_append_suse` (lines 272-295). -/
def generateAppendSuse (scheme : String) (b : AppendBuilder) :
    Except String AppendBuilder :=
  match b.dist with
  | none => .ok b
  | some dist => do
    let b :=
      if b.proxyD ≠ "" then
        { b with append_line := b.append_line ++ " proxy=" ++ b.proxyD }
      else b
    let ko ← b.getKopts
    let b ←
      match alGet ko "install" with
      | some v =>
        if v ≠ .str "" then
          .ok { b with append_line := b.append_line ++ " install=" ++ pyStr v,
                       data := { b.data with kernel_options := some (alDel ko "install") } }
        else
          suseSynthInstall scheme dist.name b
      | none => suseSynthInstall scheme dist.name b
    suseAutoyastPart b

/-- Modelled from the spec: `cobbler.actions.buildiso.add_remaining_kopts` is not
among the sources under review.  Per the spec (section 4.1), the append line ends
with "any unconsumed kernel options appended verbatim as `key=value` or bare
flags"; each remaining option is emitted preceded by a space, a `None` value as
the bare key, a list value as one `key=element` token per element. -/
def add_remaining_kopts (ko : List (String × KOptVal)) : String :=
  (ko.map (fun p =>
    match p.2 with
    | .flag => " " ++ p.1
    | .str s => " " ++ p.1 ++ "=" ++ s
    | .list l => String.join (l.map (fun s => " " ++ p.1 ++ "=" ++ s)))).foldl
    (· ++ ·) ""

/-- `AppendLineBuilder.generate_system` (lines 370-404). -/
def generateSystem (dist : Distro) (system : SystemItem) (exclude_dns : Bool)
    (scheme : String) (b : AppendBuilder) : Except String (String × AppendBuilder) := do
  let b := { b with dist := some dist }
  let b := { b with append_line := "  APPEND initrd=" ++ b.distro_name ++ ".img" }
  let b ←
    if dist.breed = "suse" then generateAppendSuse scheme b
    else if dist.breed = "redhat" then generateAppendRedhat b
    else if dist.breed = "ubuntu" ∨ dist.breed = "debian" then
      generateAppendDebian system b
    else .ok b
  let b ← generateStaticIpBootOptions b
  let b ← adjustInterfaceConfig b
  let b ← getTcpIpConfig b
  let b ← systemIntAppendLine b
  let b := systemIpAppendLine b
  let b := systemMaskAppendLine b
  let b := systemGwAppendLine b
  let b := systemDnsAppendLine exclude_dns b
  let ko ← b.getKopts
  let line := b.append_line ++ add_remaining_kopts ko
  .ok (line, { b with append_line := line })

/-- The `else` branch of the `install` handling in `generate_profile`
(lines 429-432): note that the synthesized link uses `self.distro_name`
(the shortened identifier), unlike `_generate_append_suse` which uses the
distro's real name. -/
def profileSynthInstall (protocol : String) (b : AppendBuilder) :
    Except String AppendBuilder := do
  let srv ← req b.data.server "server"
  let port ← req b.data.http_port "http_port"
  .ok { b with append_line :=
    b.append_line ++ " install=" ++ protocol ++ "://" ++ srv ++ ":" ++ port ++
      "/cblr/links/" ++ b.distro_name }

/-- `AppendLineBuilder.generate_profile` (lines 406-456).  In the suse branch the
source appends ` install=<first element>` only when the override value is a
*list* (the `+=` at line 426 is inside the `isinstance(install_options, list)`
block); for a string override nothing is appended, yet the key is still
deleted.  `install_options[0]` on an empty list raises `IndexError`. -/
def generateProfile (distro_breed : String) (os_version : String)
    (protocol : String) (b : AppendBuilder) : Except String (String × AppendBuilder) := do
  let b := { b with append_line := " append initrd=" ++ b.distro_name ++ ".img" }
  let b ←
    if distro_breed = "suse" then do
      let b :=
        if b.proxyD ≠ "" then
          { b with append_line := b.append_line ++ " proxy=" ++ b.proxyD }
        else b
      let ko ← b.getKopts
      let b ←
        match alGet ko "install" with
        | some v =>
          if v ≠ .str "" then do
            let b ←
              match v with
              | .list [] => Except.error "IndexError: list index out of range"
              | .list (x :: _) =>
                pure { b with append_line := b.append_line ++ " install=" ++ x }
              | _ => pure b
            .ok { b with data := { b.data with kernel_options := some (alDel ko "install") } }
          else
            profileSynthInstall protocol b
        | none => profileSynthInstall protocol b
      suseAutoyastPart b
    else if distro_breed = "redhat" then do
      let b :=
        if b.proxyD ≠ "" then
          { b with append_line :=
              b.append_line ++ " proxy=" ++ b.proxyD ++ " http_proxy=" ++ b.proxyD }
        else b
      let ai ← req b.data.autoinstall "autoinstall"
      if os_version ∈ ["rhel4", "rhel5", "rhel6", "fedora16"] then
        .ok { b with append_line := b.append_line ++ " ks=" ++ ai }
      else
        .ok { b with append_line := b.append_line ++ " inst.ks=" ++ ai }
    else if distro_breed = "ubuntu" ∨ distro_breed = "debian" then do
      let ai ← req b.data.autoinstall "autoinstall"
      let b := { b with append_line :=
        b.append_line ++ " auto-install/enable=true url=" ++ ai }
      if b.proxyD ≠ "" then
        .ok { b with append_line := b.append_line ++ " mirror/http/proxy=" ++ b.proxyD }
      else
        .ok b
    else
      .ok b
  let ko ← b.getKopts
  let line := b.append_line ++ add_remaining_kopts ko
  .ok (line, { b with append_line := line })

/-! ## Network-boot assembler (`NetbootBuildiso`, netboot.py lines 459-597) -/

/-- The short-name map of `BuildIso`: the memo table `distmap` together with the
counter `distctr`. -/
structure DistroShortMap where
  distmap : List (String × String)
  distctr : Nat
deriving DecidableEq, Repr

/-- Modelled from the spec: the initial short-name map lives in
`BuildIso.__init__` (`cobbler/actions/buildiso/__init__.py`), which is not among
the sources under review.  Per the spec (section 5), "every call to the
assembler starts from a fresh short-name map"; the monotonically incremented
counter starts at zero, so the first distro receives the identifier `"1"`. -/
def DistroShortMap.fresh : DistroShortMap := ⟨[], 0⟩

/-- `NetbootBuildiso.make_shorter` (netboot.py lines 484-496). -/
def makeShorter (st : DistroShortMap) (distname : String) : String × DistroShortMap :=
  match alGet st.distmap distname with
  | some short => (short, st)
  | none =>
    let ctr := st.distctr + 1
    (toString ctr, ⟨alSet st.distmap distname (toString ctr), ctr⟩)

/-- `re.match(r"[a-z]+://.*", s)` (netboot.py lines 524 and 561): one or more
lowercase ASCII letters followed by `"://"`.  `[a-z]+` is greedy and `:` is not
in the class, so the match boundary is the maximal lowercase-letter prefix. -/
def matchesUriScheme (s : String) : Bool :=
  let p := s.toList.takeWhile (fun c => 'a' ≤ c ∧ c ≤ 'z')
  p ≠ [] ∧ "://".toList.isPrefixOf (s.toList.drop p.length)

/-- Modelled from the spec: `cobbler.utils.kopts_overwrite` is not among the
sources under review.  The call sites' comment (netboot.py line 556,
standalone.py line 243) says only that for SUSE the `text` kernel option is
replaced by `textmode`; for every other breed it is modelled as the identity. -/
def kopts_overwrite (ko : List (String × KOptVal)) (breed : String) :
    List (String × KOptVal) :=
  if breed = "suse" then
    if (alGet ko "textmode").isSome then alDel ko "text"
    else if (alGet ko "text").isSome then
      alSet (alDel ko "text") "textmode" (.list ["1"])
    else ko
  else ko

/-- The settings consulted by the network-boot assembler. -/
structure NetbootSettings where
  autoinstall_scheme : String
  server : String
deriving DecidableEq, Repr

/-- `NetbootBuildiso._generate_netboot_profile` (netboot.py lines 536-570),
restricted to its pure data flow: the blended `data` for the profile is an
input (the `utils.blender` call is the out-of-scope resolved-configuration
provider), `copy_boot_files` is an external file-staging effect that does not
touch `cfglines`.  Returns the new configuration lines and the updated
short-name map.  Note line 552 writes lowercase `"  kernel "` and line 569
calls `generate_profile` without a protocol argument, so the suse install link
always uses the default `"http"`. -/
def generateNetbootProfile (profile_name : String) (dist : Distro)
    (data : ResolvedData) (settings : NetbootSettings) (st : DistroShortMap) :
    Except String (List String × DistroShortMap) := do
  let (distname, st) := makeShorter st dist.name
  let head : List String :=
    ["", "LABEL " ++ profile_name, "  MENU LABEL " ++ profile_name,
     "  kernel " ++ distname ++ ".krn"]
  let ko ← req data.kernel_options "kernel_options"
  let data := { data with kernel_options := some (kopts_overwrite ko dist.breed) }
  let ai ← req data.autoinstall "autoinstall"
  let data ←
    if ¬ matchesUriScheme ai then do
      let srv ← req data.server "server"
      let port ← req data.http_port "http_port"
      pure { data with autoinstall := some (settings.autoinstall_scheme ++ "://" ++
        srv ++ ":" ++ port ++ "/cblr/svc/op/autoinstall/profile/" ++ profile_name) }
    else
      pure data
  let (line, _) ← generateProfile dist.breed dist.os_version "http"
    (AppendBuilder.init distname data)
  .ok (head ++ [line], st)

/-! ## Template renderer (`cobbler/templates/__init__.py`) -/

/-- The whitespace characters of Python's `str.strip` / `str.lstrip` (ASCII). -/
def isPySpace (c : Char) : Bool :=
  c = ' ' ∨ c = '\t' ∨ c = '\n' ∨ c = '\r' ∨ c = '\x0b' ∨ c = '\x0c'

/-- Python `str.strip()`: whitespace removed from both ends. -/
def pyStrip (s : String) : String :=
  String.mk (((s.toList.dropWhile isPySpace).reverse.dropWhile isPySpace).reverse)

/-- Python `str.lstrip()`: all leading whitespace removed. -/
def pyLstrip (s : String) : String :=
  String.mk (s.toList.dropWhile isPySpace)

/-- `Templar.__detect_template_type` (templates/__init__.py lines 129-154),
with the process-wide `settings.default_template_type` passed explicitly.
`lines` is the rendered input split on newlines (line 211).  The `None`/non-str
checks at lines 132-136 cannot fire in the typed embedding.  Returns the chosen
template family and the (possibly directive-stripped) template body. -/
def detectTemplateType (default_template_type : String) (template_type : String)
    (lines : List String) : String × String :=
  if template_type ∉ ["default", "jinja2", "cheetah"] then
    ("# ERROR: Unsupported template type selected!", "")
  else
    let tt :=
      if template_type = "default" then
        if default_template_type ≠ "" then default_template_type else "cheetah"
      else template_type
    if lines ≠ [] ∧ strStartsWith (lines.headD "") "#template=" then
      let tt2 := pyLower (pyStrip ((splitOnChar '=' (lines.headD "")).getD 1 ""))
      (tt2, String.intercalate "\n" lines.tail)
    else
      (tt, String.intercalate "\n" lines)

/-- The post-render normalization of `Templar.render`
(templates/__init__.py lines 222-224): when the rendered output begins with a
newline, `str.lstrip()` removes *all* leading whitespace; otherwise the output
is returned unchanged. -/
def stripLeadingBlank (data_out : String) : String :=
  if strStartsWith data_out "\n" then pyLstrip data_out else data_out

/-! ## Line-based model of the `re.MULTILINE` substitutions of `standalone.py`

`^`-anchored patterns whose body cannot cross a newline are modelled linewise:
a string is split on `'\n'` (kept as a list of newline-free segments), each
segment is rewritten independently, and the segments are rejoined. -/

/-- Split a character list on `'\n'`, keeping empty segments (the inverse of
`joinNl` on newline-free segments). -/
def splitNl : List Char → List (List Char) := splitChar '\n'

/-- Rejoin segments with `'\n'`. -/
def joinNl : List (List Char) → List Char
  | [] => []
  | [x] => x
  | x :: y :: t => x ++ '\n' :: joinNl (y :: t)

/-- Apply a per-line rewrite to every line of a string. -/
def reSubAllLines (f : String → String) (s : String) : String :=
  String.mk (joinNl ((splitNl s.toList).map (fun l => (f (String.mk l)).toList)))

/-- A line consisting only of whitespace (matched entirely by `\s*`). -/
def isWsOnlyLine (l : List Char) : Bool := l.all isPySpace

/-- A line matching `\s*url .*` case-insensitively: optional whitespace, then
`url` in any case, then a space. -/
def urlLineMatch (l : List Char) : Bool :=
  match l.dropWhile isPySpace with
  | a :: b :: c :: d :: _ =>
    (a = 'u' ∨ a = 'U') ∧ (b = 'r' ∨ b = 'R') ∧ (c = 'l' ∨ c = 'L') ∧ d = ' '
  | _ => false

/-- Index of the first newline-terminated segment matching the `url` line
pattern: the final segment of a split has no trailing newline, so it can never
match `^\s*url .*\n`. -/
def findFirstUrlIdx : List (List Char) → Option Nat
  | [] => none
  | [_] => none
  | l :: rest =>
    if urlLineMatch l then some 0 else (findFirstUrlIdx rest).map (· + 1)

/-- `cdregex.sub("cdrom\n", s, count=1)` with
`cdregex = re.compile(r"^\s*url .*\n", re.IGNORECASE | re.MULTILINE)`
(standalone.py lines 20 and 171).  `\s` also matches newlines, so the leftmost
match starts at the earliest line start from which only whitespace-only lines
precede the `url` line; the matched span (those blank lines, the `url` line and
its newline) is replaced by `cdrom\n` once. -/
def cdregexSub (s : String) : String :=
  let segs := splitNl s.toList
  match findFirstUrlIdx segs with
  | none => s
  | some j =>
    let i := j - ((segs.take j).reverse.takeWhile isWsOnlyLine).length
    String.mk (joinNl (segs.take i ++ ["cdrom".toList] ++ segs.drop (j + 1)))

/-- One line under
`re.compile(rf"^(\s*repo --name={name} --baseurl=).*", re.MULTILINE)` with
replacement `\1file:///mnt/source/repo_mirror/{name}` (standalone.py lines
202-208): a line whose whitespace-stripped remainder starts with the literal
`repo --name=<name> --baseurl=` has everything after the prefix replaced by the
bundled path.  (Repository names are taken literally; names containing regex
metacharacters are outside the modelled domain.) -/
def repoBaseurlLineRewrite (rname : String) (line : String) : String :=
  let ws := line.toList.takeWhile isPySpace
  let rest := String.mk (line.toList.dropWhile isPySpace)
  let pre := "repo --name=" ++ rname ++ " --baseurl="
  if strStartsWith rest pre then
    String.mk ws ++ pre ++ "file:///mnt/source/repo_mirror/" ++ rname
  else
    line

/-- The last position `k` in `l` at which `pat` occurs (greedy `.*` backtracking
chooses the last occurrence). -/
def lastStartPos (pat l : List Char) : Option Nat :=
  ((List.range (l.length + 1)).filter (fun k => pat.isPrefixOf (l.drop k))).getLast?

/-- One line under
`re.compile(rf"^(\s*repo --name=\S+ --baseurl=).*/cobbler/distro_mirror/{distro.name}/?(.*)", re.MULTILINE)`
with replacement `\1file:///mnt/source\2` (standalone.py lines 211-217):
after optional whitespace and `repo --name=`, `\S+` matches the maximal
non-whitespace run (it cannot give back characters, since the following
literal starts with a space), then ` --baseurl=` must follow; the greedy `.*`
picks the last occurrence of `/cobbler/distro_mirror/<distro>`, `/?` consumes
one following slash if present, and the remainder is kept as `\2`. -/
def srcRepoLineRewrite (distroName : String) (line : String) : String :=
  let ws := line.toList.takeWhile isPySpace
  let rest := line.toList.dropWhile isPySpace
  if "repo --name=".toList.isPrefixOf rest then
    let afterName := rest.drop "repo --name=".length
    let nm := afterName.takeWhile (fun c => ¬ isPySpace c)
    let afterNm := afterName.drop nm.length
    if nm ≠ [] ∧ " --baseurl=".toList.isPrefixOf afterNm then
      let tl := afterNm.drop " --baseurl=".length
      let marker := ("/cobbler/distro_mirror/" ++ distroName).toList
      match lastStartPos marker tl with
      | none => line
      | some k =>
        let after := tl.drop (k + marker.length)
        let group2 := match after with
          | '/' :: r => r
          | r => r
        String.mk ws ++ "repo --name=" ++ String.mk nm ++ " --baseurl=" ++
          "file:///mnt/source" ++ String.mk group2
    else line
  else line

/-! ## Standalone/airgapped assembler (`standalone.py`) -/

/-- A repository object as returned by the repository registry
(`self.api.find_repo`): the attributes `standalone.py` reads. -/
structure RepoObj where
  name : String
  mirror_locally : Bool
deriving DecidableEq, Repr

/-- A descendant of the chosen distro: a profile or a system
(`COLLECTION_TYPE` is `"profile"` or `"system"`; `profile` is the parent
profile name consulted by the profile filter for systems). -/
structure Descendant where
  name : String
  collection_type : String
  profile : String
deriving DecidableEq, Repr

/-- The external collaborators of the standalone assembler: the item store
(`find_distro`, `distro.children`), the resolved-configuration provider
(`utils.blender`), the autoinstall document generator
(`api.autoinstallgen.generate_autoinstall_for_*`), the repository registry
(`api.find_repo`), the filesystem (`os.path.exists`) and the rsync primitive
(`utils.rsync_files` / `utils.subprocess_call`), plus the settings fields
read (`webdir`, `server`). -/
structure StandaloneEnv where
  findDistro : String → Option Distro
  children : String → List Descendant
  blender : String → ResolvedData
  autoinstallData : String → String → String
  findRepo : String → Option RepoObj
  pathExists : String → Bool
  rsyncRepoOk : String → Bool
  rsyncDistroOk : Bool
  webdir : String
  server : String

/-- `os.path.basename`: the part after the last `/`. -/
def basename (p : String) : String :=
  String.mk (p.toList.reverse.takeWhile (fun c => c ≠ '/')).reverse

/-- `os.path.dirname`: the part before the last `/`. -/
def dirname (p : String) : String :=
  String.mk ((p.toList.reverse.dropWhile (fun c => c ≠ '/')).drop 1).reverse

/-- `os.path.abspath(os.path.join(isolinuxdir, "..", "repo_mirror"))`
(standalone.py lines 98-100), modelled as lexical `..` resolution on an
absolute, already-normalized `isolinuxdir`. -/
def repodirOf (isolinuxdir : String) : String :=
  dirname isolinuxdir ++ "/repo_mirror"

/-- `os.path.join` on well-formed relative components, modelled as
`/`-concatenation. -/
def pathJoin (a b : String) : String := a ++ "/" ++ b

/-- `_generate_append_line_standalone` (standalone.py lines 23-50).  Returns
the append line together with the (possibly `install`-consumed) data. -/
def generateAppendLineStandalone (data : ResolvedData) (distro : Distro)
    (descendantName : String) : Except String (String × ResolvedData) := do
  let line := "  APPEND initrd=" ++ basename distro.initrd
  let (line, data) ←
    if distro.breed = "redhat" then
      if distro.os_version ∈ ["rhel4", "rhel5", "rhel6", "fedora16"] then
        pure (line ++ " ks=cdrom:/isolinux/" ++ descendantName ++ ".cfg", data)
      else
        pure (line ++ " inst.ks=cdrom:/isolinux/" ++ descendantName ++ ".cfg", data)
    else if distro.breed = "suse" then do
      let line := line ++ " autoyast=file:///isolinux/" ++ descendantName ++
        ".cfg install=cdrom:///"
      let ko ← req data.kernel_options "kernel_options"
      if (alGet ko "install").isSome then
        pure (line, { data with kernel_options := some (alDel ko "install") })
      else
        pure (line, data)
    else if distro.breed = "ubuntu" ∨ distro.breed = "debian" then
      pure (line ++ " auto-install/enable=true preseed/file=/cdrom/isolinux/" ++
        descendantName ++ ".cfg", data)
    else
      pure (line, data)
  let ko ← req data.kernel_options "kernel_options"
  .ok (line ++ add_remaining_kopts ko, data)

/-- The error template of `_generate_autoinstall_data` (standalone.py lines
176-179) after `str.format`. -/
def airgapErrMsg (ctype dname repo what : String) : String :=
  ctype ++ " " ++ dname ++ " refers to repo " ++ repo ++ ", which " ++ what ++
    "; cannot build airgapped ISO"

/-- The local mirror directory of a repository:
`os.path.join(settings.webdir, "repo_mirror", repo_obj.name)`. -/
def mirrordirOf (webdir : String) (obj : RepoObj) : String :=
  pathJoin (pathJoin webdir "repo_mirror") obj.name

/-- Whether one repository reference passes all three airgap validation checks
of `_generate_autoinstall_data` (exists, mirrors locally, mirror directory
present). -/
def repoChecksPass (env : StandaloneEnv) (r : String) : Bool :=
  match env.findRepo r with
  | none => false
  | some obj => obj.mirror_locally ∧ env.pathExists (mirrordirOf env.webdir obj)

/-- The per-repository loop of `_generate_autoinstall_data` (standalone.py
lines 174-208): validate each referenced repository, record its mirror path,
and rewrite every matching `repo --name=<n> --baseurl=` line of the document
(the `reporegex.sub` call passes no `count`, so all occurrences are
replaced). -/
def processRepos (env : StandaloneEnv) (d : Descendant) :
    List String → String → List (String × String) →
    Except String (String × List (String × String))
  | [], ad, rn => .ok (ad, rn)
  | r :: rest, ad, rn =>
    match env.findRepo r with
    | none =>
      .error (airgapErrMsg d.collection_type d.name r "does not exist")
    | some repo_obj =>
      if ¬ repo_obj.mirror_locally then
        .error (airgapErrMsg d.collection_type d.name r
          "is not configured for local mirroring")
      else
        let mirrordir := mirrordirOf env.webdir repo_obj
        if ¬ env.pathExists mirrordir then
          .error (airgapErrMsg d.collection_type d.name r
            "has a missing local mirror directory")
        else
          let rn := alSet rn repo_obj.name mirrordir
          let ad := reSubAllLines (repoBaseurlLineRewrite repo_obj.name) ad
          processRepos env d rest ad rn

/-- `StandaloneBuildiso._generate_autoinstall_data` (standalone.py lines
143-218): generate the document for the descendant, apply the redhat
`url`-to-`cdrom` rewrite, and in the airgapped case validate and rewrite each
referenced repository, then rewrite split-tree repo lines of this distro's own
mirror tree. -/
def generateAutoinstallData (env : StandaloneEnv) (d : Descendant) (distro : Distro)
    (airgapped : Bool) (data : ResolvedData) (repomap : List (String × String)) :
    Except String (String × List (String × String)) := do
  let autoinstall_data :=
    if d.collection_type = "profile" then env.autoinstallData "profile" d.name
    else if d.collection_type = "system" then env.autoinstallData "system" d.name
    else ""
  let autoinstall_data :=
    if distro.breed = "redhat" then cdregexSub autoinstall_data else autoinstall_data
  if airgapped then do
    let (autoinstall_data, repomap) ←
      processRepos env d data.repos autoinstall_data repomap
    .ok (reSubAllLines (srcRepoLineRewrite distro.name) autoinstall_data, repomap)
  else
    .ok (autoinstall_data, repomap)

/-- An externally visible action of one standalone assembly run, in execution
order: the boot-file staging, each file write, each repository rsync, the
creation of the media `repo_mirror` directory, and the final distro-tree
rsync. -/
inductive IsoEffect where
  | copyBootFiles (distro : String)
  | writeFile (path : String) (content : String)
  | mkdirRepoMirror (path : String)
  | rsyncRepo (repo : String) (src : String) (dst : String)
  | rsyncDistroFiles (src : String)
deriving DecidableEq, Repr

/-- Whether an effect is a repository copy. -/
def IsoEffect.isRepoCopy : IsoEffect → Bool
  | .rsyncRepo _ _ _ => true
  | _ => false

/-- The profile-filter skip condition of `generate_standalone_iso`
(standalone.py lines 290-301). -/
def skippedByFilter (profilesFilter : List String) (d : Descendant) : Bool :=
  profilesFilter ≠ [] ∧
    ((d.collection_type = "profile" ∧ d.name ∉ profilesFilter) ∨
     (d.collection_type = "system" ∧ d.profile ∉ profilesFilter))

/-- The accumulator threaded through the descendant loop: the configuration
lines, the repo-mirror map and the effects performed so far. -/
structure StandaloneAcc where
  cfglines : List String
  repomap : List (String × String)
  effects : List IsoEffect
deriving Repr

/-- `StandaloneBuildiso._generate_descendant` (standalone.py lines 220-262):
menu stanza, append line, autoinstall document generation, and the write of
`<name>.cfg`.  An exception leaves the accumulator unchanged (the descendant's
file write happens only after `_generate_autoinstall_data` succeeded). -/
def generateDescendant (env : StandaloneEnv) (distro : Distro) (airgapped : Bool)
    (isolinuxdir : String) (acc : StandaloneAcc) (d : Descendant) :
    Except String StandaloneAcc := do
  let menu_indent : Nat := if d.collection_type = "system" then 4 else 0
  let data := env.blender d.name
  let ko ← req data.kernel_options "kernel_options"
  let data := { data with kernel_options := some (kopts_overwrite ko distro.breed) }
  let cfglines := acc.cfglines ++ ["", "LABEL " ++ d.name] ++
    (if menu_indent ≠ 0 then ["  MENU INDENT " ++ toString menu_indent] else []) ++
    ["  MENU LABEL " ++ d.name, "  KERNEL " ++ basename distro.kernel]
  let (append_line, data) ← generateAppendLineStandalone data distro d.name
  let cfglines := cfglines ++ [append_line]
  let (autoinstall_data, repomap) ←
    generateAutoinstallData env d distro airgapped data acc.repomap
  .ok { cfglines := cfglines, repomap := repomap,
        effects := acc.effects ++
          [.writeFile (pathJoin isolinuxdir (d.name ++ ".cfg")) autoinstall_data] }

/-- The descendant loop of `generate_standalone_iso` (standalone.py lines
289-304): descendants filtered out are skipped; the first exception aborts the
loop, keeping the effects performed so far. -/
def runDescendants (env : StandaloneEnv) (distro : Distro) (airgapped : Bool)
    (isolinuxdir : String) (profilesFilter : List String) :
    List Descendant → StandaloneAcc → StandaloneAcc × Option String
  | [], acc => (acc, none)
  | d :: rest, acc =>
    if skippedByFilter profilesFilter d then
      runDescendants env distro airgapped isolinuxdir profilesFilter rest acc
    else
      match generateDescendant env distro airgapped isolinuxdir acc d with
      | .ok acc' => runDescendants env distro airgapped isolinuxdir profilesFilter rest acc'
      | .error e => (acc, some e)

/-- `StandaloneBuildiso._sync_airgapped_repos` (standalone.py lines 87-113):
create the media `repo_mirror` directory if needed, then rsync each recorded
repository; a failed rsync raises after the attempt. -/
def syncAirgappedRepos (env : StandaloneEnv) (airgapped : Bool)
    (isolinuxdir : String) : List (String × String) → List IsoEffect →
    List IsoEffect × Option String
  | repomap, effects =>
    if airgapped then
      let repodir := repodirOf isolinuxdir
      let effects :=
        if ¬ env.pathExists repodir then effects ++ [.mkdirRepoMirror repodir]
        else effects
      syncRepoLoop env repodir repomap effects
    else
      (effects, none)
where
  /-- The `for repo_name in repo_names_to_copy` loop (lines 104-113). -/
  syncRepoLoop (env : StandaloneEnv) (repodir : String) :
      List (String × String) → List IsoEffect → List IsoEffect × Option String
    | [], effects => (effects, none)
    | (rname, src) :: rest, effects =>
      let effects := effects ++ [.rsyncRepo rname src (pathJoin repodir rname)]
      if env.rsyncRepoOk rname then
        syncRepoLoop env repodir rest effects
      else
        (effects, some ("rsync of repo \"" ++ rname ++ "\" failed"))

/-- `StandaloneBuildiso.generate_standalone_iso` (standalone.py lines 264-332):
resolve the distro, stage boot files, run the descendant loop, write
`isolinux.cfg`, synchronize airgapped repositories, and finally rsync the
install source tree.  Returns the effects performed and the error aborting the
run, if any. -/
def generateStandaloneIso (env : StandaloneEnv) (profilesFilter : List String)
    (distro_name : String) (filesource : String) (airgapped : Bool)
    (isolinuxdir iso_template : String) : List IsoEffect × Option String :=
  match env.findDistro distro_name with
  | none =>
    ([], some ("Distro \"" ++ distro_name ++
      "\" was not found, aborting generation of ISO-file!"))
  | some distro =>
    let acc0 : StandaloneAcc := ⟨[iso_template], [], [.copyBootFiles distro.name]⟩
    match runDescendants env distro airgapped isolinuxdir profilesFilter
        (env.children distro_name) acc0 with
    | (acc, some e) => (acc.effects, some e)
    | (acc, none) =>
      let cfglines := acc.cfglines ++ ["", "MENU END"]
      let effects := acc.effects ++
        [.writeFile (pathJoin isolinuxdir "isolinux.cfg")
          (String.join (cfglines.map (fun l => l ++ "\n")))]
      match syncAirgappedRepos env airgapped isolinuxdir acc.repomap effects with
      | (effects, some e) => (effects, some e)
      | (effects, none) =>
        let effects := effects ++ [.rsyncDistroFiles filesource]
        if env.rsyncDistroOk then (effects, none)
        else (effects, some "rsync of distro files failed")

/-! ## AutoYaST generator (`cobbler/autoinstall/generate/autoyast.py`)

The parsed `xml.dom.minidom` document is modelled as the list of the document
node's children (typically a doctype followed by the root element); `toxml()`
is the stdlib serializer and is modelled as the identity on the tree. -/

/-- A node of the parsed XML document. -/
inductive XNode where
  | element (tag : String) (attrs : List (String × String)) (children : List XNode)
  | text (s : String)
  | cdata (s : String)
  | doctype (s : String)

/-- `node.childNodes`. -/
def XNode.childNodes : XNode → List XNode
  | .element _ _ cs => cs
  | _ => []

/-- `node.nodeType == node.ELEMENT_NODE and node.tagName == tag`. -/
def XNode.isElementWithTag (tag : String) : XNode → Bool
  | .element t _ _ => t = tag
  | _ => false

/-- `node.appendChild(child)` on an element. -/
def XNode.appendChild (child : XNode) : XNode → XNode
  | .element t a cs => .element t a (cs ++ [child])
  | n => n

/-- The `<cobbler>` element built at autoyast.py lines 33-45: a `server` child
holding the http server name, an empty `system_name` child and a
`profile_name` child holding the target's name. -/
def cobblerElement (srv objName : String) : XNode :=
  .element "cobbler" []
    [.element "server" [] [.text srv],
     .element "system_name" [] [],
     .element "profile_name" [] [.text objName]]

/-- `AutoYastGenerator.__create_autoyast_script` (lines 63-84): a `script`
element holding a `source` child (CDATA script body) and a `filename` child. -/
def createAutoyastScript (script name : String) : XNode :=
  .element "script" []
    [.element "source" [] [.cdata script],
     .element "filename" [] [.text name]]

mutual

/-- Rewrite the first element named `tag` in document (pre-)order — the
`getElementsByTagName(tag)[0]` target; also reports whether any was found. -/
def modifyFirstTag (tag : String) (f : XNode → XNode) : XNode → XNode × Bool
  | .element t a cs =>
    if t = tag then (f (.element t a cs), true)
    else
      let r := modifyFirstTagList tag f cs
      (.element t a r.1, r.2)
  | n => (n, false)

/-- `modifyFirstTag` over a forest, in order. -/
def modifyFirstTagList (tag : String) (f : XNode → XNode) :
    List XNode → List XNode × Bool
  | [] => ([], false)
  | n :: rest =>
    let r := modifyFirstTag tag f n
    if r.2 then (r.1 :: rest, true)
    else
      let rr := modifyFirstTagList tag f rest
      (n :: rr.1, rr.2)

end

/-- `document.getElementsByTagName(tag).length == 0`? -/
def hasTagInDoc (tag : String) (document : List XNode) : Bool :=
  (modifyFirstTagList tag id document).2

/-- `document.documentElement.appendChild(child)`: append to the root element
(the first element child of the document node); raises when the document has no
element (minidom's `documentElement` would be `None`). -/
def appendToDocumentElement (document : List XNode) (child : XNode) :
    Except String (List XNode) :=
  match document with
  | [] => .error "AttributeError: documentElement is None"
  | n :: rest =>
    match n with
    | .element t a cs => .ok (.element t a (cs ++ [child]) :: rest)
    | _ => do
      let r ← appendToDocumentElement rest child
      .ok (n :: r)

/-- The rewrite applied to `scripts[0]` by the body of
`__add_auto_yast_script` (lines 100-117): append a fresh callback script to
every child element named `script_type`; if there is none, create the per-phase
container with a `config:type="list"` attribute, the script inside, and append
it to the scripts element. -/
def appendScriptsInto (script_type source : String) (scriptsEl : XNode) : XNode :=
  match scriptsEl with
  | .element t a children =>
    let newScript := createAutoyastScript source (script_type ++ "_cobbler")
    if children.any (XNode.isElementWithTag script_type) then
      .element t a (children.map (fun c =>
        if c.isElementWithTag script_type then c.appendChild newScript else c))
    else
      .element t a (children ++
        [.element script_type [("config:type", "list")] [newScript]])
  | n => n

/-- `AutoYastGenerator.__add_auto_yast_script` (lines 86-117): ensure a
`scripts` container exists under the document element, then add the callback
script to the first `scripts` element in document order. -/
def addAutoYastScript (document : List XNode) (script_type source : String) :
    Except String (List XNode) := do
  let document ←
    if ¬ hasTagInDoc "scripts" document then
      appendToDocumentElement document (.element "scripts" [] [])
    else
      pure document
  .ok (modifyFirstTagList "scripts" (appendScriptsInto script_type source) document).1

/-- The settings read by the AutoYaST generator. -/
structure YastSettings where
  run_install_triggers : Bool
  autoinstall_scheme : String
deriving DecidableEq, Repr

/-- `AutoYastGenerator.generate_autoinstall` (autoyast.py lines 17-61), on the
parsed template document.  `srv` is `blended["http_server"]`, `what` is
`obj.ITEM_TYPE` and `objName` is `obj.name`.  `document.childNodes[1]` raises
`IndexError` on a document with fewer than two children.  Note: when no
`<cobbler>` child is found under `childNodes[1]`, the source *builds* the
`cobbler_element` (lines 33-45) but never attaches it to the document — the
constructed element is discarded, which the embedding mirrors by binding it to
an unused local. -/
def generateAutoinstallAutoyast (settings : YastSettings) (srv what objName : String)
    (document : List XNode) : Except String (List XNode) := do
  let root ← match document.drop 1 with
    | n :: _ => Except.ok n
    | [] => Except.error "IndexError: childNodes[1]"
  let add_comment : Nat :=
    if root.childNodes.any (XNode.isElementWithTag "cobbler") then 0 else 1
  let _cobbler_element : Option XNode :=
    if add_comment = 1 then some (cobblerElement srv objName) else none
  if settings.run_install_triggers then do
    let document ← addAutoYastScript document "pre-scripts"
      ("\ncurl \"" ++ settings.autoinstall_scheme ++ "://" ++ srv ++
        "/cblr/svc/op/trig/mode/pre/" ++ what ++ "/" ++ objName ++ "\" > /dev/null")
    addAutoYastScript document "init-scripts"
      ("\ncurl \"" ++ settings.autoinstall_scheme ++ "://" ++ srv ++
        "/cblr/svc/op/trig/mode/post/" ++ what ++ "/" ++ objName ++ "\" > /dev/null")
  else
    .ok document

/-- The builder fields and data entries that one compiler step leaves intact:
used to chain the static-network pipeline steps of `generate_system`.  A step
related to its input by `BuilderOkStep` has not raised, has not chosen an
interface, and has not touched the entries later steps consult. -/
def BuilderOkStep (b b' : AppendBuilder) : Prop :=
  b'.dist = b.dist ∧
  b'.system_interface = b.system_interface ∧
  b'.data.interfaces = b.data.interfaces ∧
  b'.data.name_servers = b.data.name_servers ∧
  b'.data.ip_address = b.data.ip_address ∧
  b'.data.netmask = b.data.netmask ∧
  b'.data.interface_master = b.data.interface_master ∧
  b'.data.kernel_options.isSome = true

/-! ## Concrete claim inputs -/

/-- The C3 end-to-end scenario data: profile `p1`, `kernel_options = {}`,
`autoinstall = ""`, `server = "10.0.0.1"`, `http_port = "80"`. -/
def c3Data : ResolvedData :=
  { kernel_options := some [], autoinstall := some "",
    server := some "10.0.0.1", http_port := some "80" }

/-- The distro of the C3 scenario: `d1`, redhat, rhel9. -/
def c3Distro : Distro := ⟨"d1", "redhat", "rhel9", "", ""⟩

/-- The C5 failing input: a parsed AutoYaST template (doctype plus root) whose
root has no `<cobbler>` child. -/
def c5Doc : List XNode :=
  [.doctype "profile",
   .element "profile" [] [.element "users" [] [.text "u"]]]

/-- The concrete C10 input: a single bonded management interface with no
slaves. -/
def c10Builder : AppendBuilder :=
  AppendBuilder.init "d"
    { kernel_options := some [], autoinstall := some "k",
      interfaces := some [("bond0", ⟨true, "bond", ""⟩)] }

/-- A concrete environment for the airgap claims: distro `d1` (suse) with the
single profile `p1` referencing repository `r1`, whose generated document
holds two `repo --name=r1` lines; `r1` exists, mirrors locally, and its mirror
directory exists. -/
def c6Env : StandaloneEnv :=
  { findDistro := fun _ => some ⟨"d1", "suse", "15", "/k", "/i"⟩,
    children := fun _ => [⟨"p1", "profile", ""⟩],
    blender := fun _ =>
      { kernel_options := some [], autoinstall := some "a", repos := ["r1"] },
    autoinstallData := fun _ _ =>
      "repo --name=r1 --baseurl=http://a\nrepo --name=r1 --baseurl=http://b\nx",
    findRepo := fun _ => some ⟨"r1", true⟩,
    pathExists := fun _ => true,
    rsyncRepoOk := fun _ => true,
    rsyncDistroOk := true,
    webdir := "/srv/www/cobbler",
    server := "cob" }

/-- The descendant of the C6/C7 scenarios. -/
def c6Desc : Descendant := ⟨"p1", "profile", ""⟩

/-- The C7 scenario: same as `c6Env`, but the local mirror directory of `r1`
does not exist. -/
def c7Env : StandaloneEnv :=
  { c6Env with pathExists := fun p => p ≠ "/srv/www/cobbler/repo_mirror/r1" }

/-- The bonded-interface scenario of C1: one bonded management interface
`bond0` with slaves `eth7` and `eth0`, the master's IP/netmask recorded in the
flattened data. -/
def c1Builder : AppendBuilder :=
  AppendBuilder.init "d"
    { kernel_options := some [], autoinstall := some "k",
      interfaces := some
        [("bond0", ⟨true, "bond", ""⟩),
         ("eth7", ⟨false, "bond_slave", "bond0"⟩),
         ("eth0", ⟨false, "bond_slave", "bond0"⟩)],
      ip_address := [("bond0", "1.2.3.4")],
      netmask := [("bond0", "255.255.255.0")],
      interface_master := [("eth0", "bond0"), ("eth7", "bond0")],
      name_servers := some (.list []) }

/-- The C1 counterexample data: a redhat system with *two* single management
interfaces (so no interface is auto-selected) but a global gateway and an
empty name-server list. -/
def c1CexData : ResolvedData :=
  { kernel_options := some [], autoinstall := some "k",
    interfaces := some
      [("eth1", ⟨true, "na", ""⟩), ("eth2", ⟨true, "na", ""⟩)],
    gateway := some "10.1.1.1", name_servers := some (.list []) }

/-- The C4 witness data: both structural keys plus the optional keys the
amended claim needs, an empty interface dict and a name-server list. -/
def c4Data : ResolvedData :=
  { kernel_options := some [], autoinstall := some "a", server := some "10.0.0.1",
    http_port := some "80", name_servers := some (.list ["1.1.1.1"]),
    interfaces := some [] }

/-- The distro object of the C6 scenario. -/
def c6Distro : Distro := ⟨"d1", "suse", "15", "/k", "/i"⟩

/-! ## Helper lemmas -/

/-- `bind` on a successful `Except` computation. -/
theorem exceptBindOk {ε α β : Type} (a : α) (f : α → Except ε β) :
    (Except.ok a >>= f : Except ε β) = f a := rfl

/-- `bind` on a failed `Except` computation. -/
theorem exceptBindErr {ε α β : Type} (e : ε) (f : α → Except ε β) :
    (Except.error e >>= f : Except ε β) = Except.error e := rfl

/-- `pure` on `Except` is `Except.ok`. -/
theorem exceptPure {ε α : Type} (a : α) : (pure a : Except ε α) = Except.ok a := rfl

/-- The head of `dropWhile p` never satisfies `p`. -/
theorem head?_dropWhile_not {α : Type} (p : α → Bool) (l : List α) :
    ∀ c, (l.dropWhile p).head? = some c → p c = false := by
  induction l with
  | nil => intro c h; simp [List.dropWhile] at h
  | cons a t ih =>
    intro c h
    by_cases hp : p a
    · rw [List.dropWhile_cons_of_pos hp] at h
      exact ih c h
    · rw [List.dropWhile_cons_of_neg hp] at h
      simp at h
      subst h
      simpa using hp

/-! ## Claim C2 -/

/-- C2: in `generate_profile` (suse), a *string*-valued `install` override is
consumed from `kernel_options` but never emitted — the `append_line +=` at
netboot.py line 426 sits inside the `isinstance(install_options, list)` block,
so the compiled append line contains no `install=` token at all (neither the
override nor the synthesized link), contradicting the claim (and the system
variant `_generate_append_suse`, which does emit it). -/
theorem c2_profile_install_override_dropped :
    (generateProfile "suse" "sles15generic" "http"
      (AppendBuilder.init "d"
        { kernel_options := some [("install", .str "http://over")],
          autoinstall := some "auto.xml" })).map
      (fun r => (r.1, r.2.data.kernel_options)) =
      .ok (" append initrd=d.img autoyast=auto.xml", some []) ∧
    (" append initrd=d.img autoyast=auto.xml" : String) ≠
      " append initrd=d.img install=http://over autoyast=auto.xml" := by
  constructor
  · rfl
  · decide

/-! ## Claim C3 -/

/-- C3 counterexample: the append line emitted by the network-boot assembler
for the claim's scenario is not `" append initrd=d1.img ..."` — the initrd
image is named after the short identifier assigned by `make_shorter`, not
after the distro. -/
theorem c3_counterexample :
    (generateNetbootProfile "p1" c3Distro c3Data ⟨"http", "cob"⟩
      DistroShortMap.fresh).map (fun r => r.1.getLastD "") ≠
      .ok " append initrd=d1.img inst.ks=http://10.0.0.1:80/cblr/svc/op/autoinstall/profile/p1" := by
  intro h
  rw [show (generateNetbootProfile "p1" c3Distro c3Data ⟨"http", "cob"⟩
      DistroShortMap.fresh).map (fun r => r.1.getLastD "") =
      Except.ok " append initrd=1.img inst.ks=http://10.0.0.1:80/cblr/svc/op/autoinstall/profile/p1"
      from rfl] at h
  exact absurd (Except.ok.inj h) (by decide)

/-- C3 amended: in the claim's scenario the emitted append line equals
`" append initrd=1.img inst.ks=http://10.0.0.1:80/cblr/svc/op/autoinstall/profile/p1"`:
the server value is substituted and the autoinstall URI synthesized as claimed,
but the initrd image is named after the short distro identifier `"1"` (the
first identifier handed out by the fresh short-name map), not after `d1`. -/
theorem c3_amended_append_line :
    (generateNetbootProfile "p1" c3Distro c3Data ⟨"http", "cob"⟩
      DistroShortMap.fresh).map (fun r => r.1.getLastD "") =
      .ok " append initrd=1.img inst.ks=http://10.0.0.1:80/cblr/svc/op/autoinstall/profile/p1" := by
  rfl

/-! ## Claim C4 (counterexample part) -/

/-- C4 counterexample: a resolved configuration containing both structural keys
(`kernel_options` and `autoinstall`) on which the compiler *does* raise: for
the suse breed with no `install` override, the synthesized install link
dereferences `data["server"]` unguarded, so a missing optional `server` key
raises `KeyError` (netboot.py line 430; likewise line 288 in the system
variant). -/
theorem c4_counterexample :
    generateProfile "suse" "sles15generic" "http"
      (AppendBuilder.init "d" { kernel_options := some [], autoinstall := some "a" }) =
      .error "KeyError: server" := by
  rfl

/-! ## Claim C5 -/

/-- C5: on a rendered template without a `<cobbler>` element (and with install
triggers disabled), `generate_autoinstall` returns the document *unchanged*:
the synthesized `cobbler` element of autoyast.py lines 33-45 is constructed but
never attached to the document, so no `<cobbler>` element is injected,
contradicting the claim (and the source's own comment "Add some cobbler
information to the XML file"). -/
theorem c5_cobbler_element_not_injected :
    generateAutoinstallAutoyast ⟨false, "http"⟩ "srv" "profile" "p1" c5Doc =
      .ok c5Doc ∧
    ((c5Doc.drop 1).headD (.text "")).childNodes.any
      (XNode.isElementWithTag "cobbler") = false := by
  exact ⟨rfl, rfl⟩

/-! ## Claim C8 -/

/-- C8 counterexample: with an explicitly requested family (`jinja2`) *and* a
leading `#template=cheetah` directive, the selected family is the directive's,
not the explicit request — the directive check at templates/__init__.py line
147 runs unconditionally and overwrites the explicit request. -/
theorem c8_counterexample :
    detectTemplateType "" "jinja2" ["#template=cheetah", "x"] = ("cheetah", "x") ∧
    ("cheetah" : String) ≠ "jinja2" := by
  exact ⟨rfl, by decide⟩

/-! ## Claim C9 -/

/-- C9 counterexample: a rendered result beginning with two blank lines: the
claim predicts only the first blank line is removed (yielding `"\n  x"`), but
`str.lstrip()` at templates/__init__.py line 224 strips *all* leading
whitespace, yielding `"x"`. -/
theorem c9_counterexample :
    stripLeadingBlank "\n\n  x" = "x" ∧ ("x" : String) ≠ "\n  x" := by
  exact ⟨rfl, by decide⟩

/-- C9 amended: the post-render normalization leaves a result not beginning
with a newline unchanged; for a result beginning with a newline it removes the
*entire* maximal leading run of whitespace (not just one blank line): the
output is the suffix of the input past its leading whitespace run, and its
first character, if any, is not whitespace. -/
theorem c9_amended_strip (s : String) :
    (strStartsWith s "\n" = false → stripLeadingBlank s = s) ∧
    (strStartsWith s "\n" = true →
      s.toList = s.toList.takeWhile isPySpace ++ (stripLeadingBlank s).toList ∧
      (∀ c ∈ s.toList.takeWhile isPySpace, isPySpace c) ∧
      (∀ c, (stripLeadingBlank s).toList.head? = some c → isPySpace c = false)) := by
  constructor
  · intro h
    simp [stripLeadingBlank, h]
  · intro h
    refine ⟨?_, ?_, ?_⟩
    · simp only [stripLeadingBlank, h, if_true, pyLstrip]
      exact (List.takeWhile_append_dropWhile isPySpace s.toList).symm
    · intro c hc
      exact List.mem_takeWhile_imp hc
    · intro c hc
      simp only [stripLeadingBlank, h, if_true, pyLstrip] at hc
      exact head?_dropWhile_not isPySpace s.toList c hc

/-- Witness for C9 amended at `s = "\n\n  x"`. -/
theorem c9_amended_strip_witness :
    "\n\n  x".toList = "\n\n  x".toList.takeWhile isPySpace ++
      (stripLeadingBlank "\n\n  x").toList := by
  exact ((c9_amended_strip "\n\n  x").2 (by decide)).1

/-! ## Claim C10 -/

/-- C10: when the interfaces hold exactly one management interface of type
bond/bridge, no single management candidate, and *no* slave interface whose
master is that candidate, `_adjust_interface_config` indexes the empty
`slave_ints` list at position 0 and raises `IndexError` instead of leaving the
interface unresolved; a non-empty slave list is a genuine precondition of the
bonded/bridged branch. -/
theorem c10_empty_slaves_raises (b : AppendBuilder) (ifaces : List (String × Iface))
    (hsi : b.system_interface = none)
    (hif : b.data.interfaces = some ifaces)
    (hmulti : ((ifaces.filter (fun p =>
      p.2.management ∧ p.2.interface_type ∈ ["bond", "bridge"])).map Prod.fst).length = 1)
    (hsingle : ((ifaces.filter (fun p =>
      p.2.management ∧ p.2.interface_type ∉ ["bond", "bridge"] ++ slaveTypes)).map
        Prod.fst).length = 0)
    (hslaves : ifaces.filter (fun p =>
      p.2.interface_type ∈ slaveTypes ∧
      p.2.interface_master = ((ifaces.filter (fun q =>
        q.2.management ∧ q.2.interface_type ∈ ["bond", "bridge"])).map
          Prod.fst).headD "") = []) :
    adjustInterfaceConfig b = .error "IndexError: list index out of range" := by
  unfold adjustInterfaceConfig
  rw [hsi, hif]
  have h1 : req (some ifaces) "interfaces" = Except.ok ifaces := rfl
  rw [h1]
  simp only [exceptBindOk]
  rw [if_pos (And.intro hmulti hsingle), hslaves]
  simp [exceptBindErr]

/-- Witness for C10 on `c10Builder`. -/
theorem c10_empty_slaves_raises_witness :
    adjustInterfaceConfig c10Builder = .error "IndexError: list index out of range" :=
  c10_empty_slaves_raises c10Builder [("bond0", ⟨true, "bond", ""⟩)]
    rfl rfl (by decide) (by decide) (by decide)

/-! ## Claim C8 (amended part) -/

/-- C8 amended: the template-family selection precedence of
`Templar.__detect_template_type` is: a leading in-document `#template=` line
first (consumed and stripped from the body, overriding even an explicitly
requested family), then the explicitly requested family, then the process-wide
configured default, then the hard-coded `cheetah` fallback. -/
theorem c8_amended_precedence :
    (∀ dflt tt hd rest fam, tt ∈ ["default", "jinja2", "cheetah"] →
      strStartsWith hd "#template=" = true →
      pyLower (pyStrip ((splitOnChar '=' hd).getD 1 "")) = fam →
      detectTemplateType dflt tt (hd :: rest) =
        (fam, String.intercalate "\n" rest)) ∧
    (∀ dflt tt lines, tt ∈ ["jinja2", "cheetah"] →
      (lines = [] ∨ strStartsWith (lines.headD "") "#template=" = false) →
      detectTemplateType dflt tt lines = (tt, String.intercalate "\n" lines)) ∧
    (∀ dflt lines, dflt ≠ "" →
      (lines = [] ∨ strStartsWith (lines.headD "") "#template=" = false) →
      detectTemplateType dflt "default" lines =
        (dflt, String.intercalate "\n" lines)) ∧
    (∀ lines,
      (lines = [] ∨ strStartsWith (lines.headD "") "#template=" = false) →
      detectTemplateType "" "default" lines =
        ("cheetah", String.intercalate "\n" lines)) := by
  refine ⟨?_, ?_, ?_, ?_⟩
  · intro dflt tt hd rest fam htt hsw hfam
    simp only [List.mem_cons, List.mem_singleton, List.not_mem_nil, or_false] at htt
    rw [List.getD_eq_getElem?_getD] at hfam
    rcases htt with rfl | rfl | rfl <;>
      simp [detectTemplateType, hsw, hfam]
  · intro dflt tt lines htt hnd
    simp only [List.mem_cons, List.mem_singleton, List.not_mem_nil, or_false] at htt
    rcases hnd with rfl | hnd
    · rcases htt with rfl | rfl <;> simp [detectTemplateType]
    · rcases htt with rfl | rfl <;>
        cases lines with
        | nil => simp [detectTemplateType]
        | cons hd rest => simp only [List.headD_cons] at hnd; simp [detectTemplateType, hnd]
  · intro dflt lines hdflt hnd
    rcases hnd with rfl | hnd
    · simp [detectTemplateType, hdflt]
    · cases lines with
      | nil => simp [detectTemplateType, hdflt]
      | cons hd rest =>
        simp only [List.headD_cons] at hnd
        simp [detectTemplateType, hdflt, hnd]
  · intro lines hnd
    rcases hnd with rfl | hnd
    · simp [detectTemplateType]
    · cases lines with
      | nil => simp [detectTemplateType]
      | cons hd rest =>
        simp only [List.headD_cons] at hnd
        simp [detectTemplateType, hnd]

/-- Witness for C8 amended: a directive line overrides the explicit `jinja2`
request and is consumed from the body. -/
theorem c8_amended_precedence_witness :
    detectTemplateType "x" "jinja2" ["#template=cheetah", "b"] = ("cheetah", "b") :=
  c8_amended_precedence.1 "x" "jinja2" "#template=cheetah" ["b"] "cheetah"
    (by decide) (by decide) (by decide)

/-! ## Lemmas about the line-based substitution model -/

/-- `(String.mk l).toList = l`. -/
theorem toList_mk (l : List Char) : (String.mk l).toList = l := rfl

/-- `toList` distributes over string append. -/
theorem toList_append (a b : String) : (a ++ b).toList = a.toList ++ b.toList :=
  String.data_append a b

/-- `splitChar` never returns the empty list of segments. -/
theorem splitChar_ne_nil (sep : Char) (cs : List Char) : splitChar sep cs ≠ [] := by
  induction cs with
  | nil => simp [splitChar]
  | cons c t ih =>
    simp only [splitChar]
    by_cases h : c = sep
    · simp [h]
    · rw [if_neg h]
      cases hs : splitChar sep t with
      | nil => simp
      | cons a b => simp

/-- Segments produced by `splitChar` do not contain the separator. -/
theorem splitChar_not_mem (sep : Char) (cs : List Char) :
    ∀ l ∈ splitChar sep cs, sep ∉ l := by
  induction cs with
  | nil =>
    intro l hl
    simp only [splitChar, List.mem_singleton] at hl
    simp [hl]
  | cons c t ih =>
    intro l hl
    simp only [splitChar] at hl
    by_cases h : c = sep
    · rw [if_pos h] at hl
      rcases List.mem_cons.mp hl with rfl | hl
      · simp
      · exact ih l hl
    · rw [if_neg h] at hl
      cases hs : splitChar sep t with
      | nil => exact absurd hs (splitChar_ne_nil sep t)
      | cons a b =>
        rw [hs] at hl
        rcases List.mem_cons.mp hl with rfl | hl
        · intro hmem
          rcases List.mem_cons.mp hmem with heq | hmem
          · exact h heq.symm
          · exact ih a (hs ▸ List.mem_cons_self a b) hmem
        · exact ih l (hs ▸ List.mem_cons_of_mem a hl)

/-- A separator-free list splits into itself as the only segment. -/
theorem splitChar_of_not_mem (sep : Char) (x : List Char) (hx : sep ∉ x) :
    splitChar sep x = [x] := by
  induction x with
  | nil => simp [splitChar]
  | cons c t ih =>
    have hc : ¬ c = sep := fun h => hx (h ▸ List.mem_cons_self c t)
    have ht : sep ∉ t := fun h => hx (List.mem_cons_of_mem c h)
    simp only [splitChar, if_neg hc, ih ht]

/-- Splitting a separator-free segment glued in front of a separator. -/
theorem splitChar_append_sep (sep : Char) (x rest : List Char) (hx : sep ∉ x) :
    splitChar sep (x ++ sep :: rest) = x :: splitChar sep rest := by
  induction x with
  | nil => simp [splitChar]
  | cons c t ih =>
    have hc : ¬ c = sep := fun h => hx (h ▸ List.mem_cons_self c t)
    have ht : sep ∉ t := fun h => hx (List.mem_cons_of_mem c h)
    simp only [List.cons_append, splitChar, if_neg hc, List.append_eq]
    rw [ih ht]

/-- Round trip: joining newline-free segments and re-splitting returns them. -/
theorem splitNl_joinNl (xs : List (List Char)) (hne : xs ≠ [])
    (hnl : ∀ x ∈ xs, '\n' ∉ x) : splitNl (joinNl xs) = xs := by
  induction xs with
  | nil => exact absurd rfl hne
  | cons x t ih =>
    cases t with
    | nil =>
      simp only [joinNl, splitNl]
      exact splitChar_of_not_mem '\n' x (hnl x (List.mem_cons_self x []))
    | cons y u =>
      have h1 : joinNl (x :: y :: u) = x ++ '\n' :: joinNl (y :: u) := rfl
      rw [h1]
      simp only [splitNl] at ih ⊢
      rw [splitChar_append_sep '\n' x (joinNl (y :: u)) (hnl x (List.mem_cons_self x _))]
      rw [ih (by simp) (fun z hz => hnl z (List.mem_cons_of_mem x hz))]

/-- The lines of `reSubAllLines f s` are the per-line images of the lines of
`s`, provided the images are newline-free. -/
theorem splitNl_reSubAllLines (f : String → String) (s : String)
    (hf : ∀ l ∈ splitNl s.toList, '\n' ∉ (f (String.mk l)).toList) :
    splitNl (reSubAllLines f s).toList =
      (splitNl s.toList).map (fun l => (f (String.mk l)).toList) := by
  unfold reSubAllLines
  rw [toList_mk]
  apply splitNl_joinNl
  · intro h
    exact splitChar_ne_nil '\n' s.toList (List.map_eq_nil_iff.mp h)
  · intro x hx
    rcases List.mem_map.mp hx with ⟨l, hl, rfl⟩
    exact hf l hl

/-- A pattern whose first character is not whitespace cannot occur across a
prepended whitespace run. -/
theorem not_infix_append_ws (p : Char) (ps : List Char) (hp : isPySpace p = false) :
    ∀ ws rest : List Char, (∀ c ∈ ws, isPySpace c = true) →
      ¬ (p :: ps) <:+: rest → ¬ (p :: ps) <:+: (ws ++ rest)
  | [], _, _, hrest => by simpa using hrest
  | a :: t, rest, hws, hrest => by
    intro hinf
    rcases List.infix_cons_iff.mp hinf with hpre | hinf2
    · have h1 := (List.cons_prefix_cons.mp hpre).1
      have ha := hws a (List.mem_cons_self a t)
      rw [← h1, hp] at ha
      exact Bool.false_ne_true ha
    · exact not_infix_append_ws p ps hp t rest
        (fun c hc => hws c (List.mem_cons_of_mem a hc)) hrest hinf2

/-- A found `lastStartPos` is a genuine occurrence. -/
theorem lastStartPos_occurs (pat l : List Char) (k : Nat)
    (hk : lastStartPos pat l = some k) : pat <:+: l := by
  unfold lastStartPos at hk
  rcases List.getLast?_eq_some_iff.mp hk with ⟨ys, hys⟩
  have hmem : k ∈ (List.range (l.length + 1)).filter
      (fun k => pat.isPrefixOf (l.drop k)) := by
    rw [hys]; exact List.mem_append_right ys (List.mem_singleton_self k)
  have hpre : pat <+: l.drop k :=
    List.isPrefixOf_iff_prefix.mp (List.mem_filter.mp hmem).2
  exact hpre.isInfix.trans (List.drop_suffix k l).isInfix

/-- `srcRepoLineRewrite` leaves a line without the distro-mirror marker
unchanged. -/
theorem srcRepoLineRewrite_id (dn line : String)
    (h : ¬ ("/cobbler/distro_mirror/" ++ dn).toList <:+: line.toList) :
    srcRepoLineRewrite dn line = line := by
  have hsuffix : ∀ tl : List Char, tl <:+ line.toList →
      lastStartPos (("/cobbler/distro_mirror/" ++ dn).toList) tl = none := by
    intro tl hsuf
    cases hk : lastStartPos (("/cobbler/distro_mirror/" ++ dn).toList) tl with
    | none => rfl
    | some k =>
      exact absurd ((lastStartPos_occurs _ tl k hk).trans hsuf.isInfix) h
  simp only [srcRepoLineRewrite]
  split
  case isTrue h1 =>
    split
    case isTrue h2 =>
      rw [hsuffix _ (((List.drop_suffix _ _).trans
        ((List.drop_suffix _ _).trans
          ((List.drop_suffix _ _).trans (List.dropWhile_suffix isPySpace)))))]
    case isFalse h2 => rfl
  case isFalse h1 => rfl

/-- `repoBaseurlLineRewrite` either leaves the line unchanged or replaces it by
the whitespace-prefix plus the rewritten `baseurl` content. -/
theorem repoBaseurlLineRewrite_cases (rn line : String) :
    repoBaseurlLineRewrite rn line = line ∨
    repoBaseurlLineRewrite rn line =
      String.mk (line.toList.takeWhile isPySpace) ++
        ("repo --name=" ++ rn ++ " --baseurl=") ++
        "file:///mnt/source/repo_mirror/" ++ rn := by
  simp only [repoBaseurlLineRewrite]
  split
  case isTrue h => right; rfl
  case isFalse h => left; rfl

/-- The rewritten `baseurl` line contains no newline when neither the repo
name nor the input line does. -/
theorem nl_not_mem_rewritten (rn : String) (hnl : '\n' ∉ rn.toList)
    (l : List Char) (hl : '\n' ∉ l) :
    '\n' ∉ (String.mk (l.takeWhile isPySpace) ++
      ("repo --name=" ++ rn ++ " --baseurl=") ++
      "file:///mnt/source/repo_mirror/" ++ rn).toList := by
  intro hmem
  simp only [toList_append, toList_mk, List.mem_append] at hmem
  rcases hmem with ((hws | ((hb1 | hrn) | hb3)) | hc) | hd
  · exact hl ((List.takeWhile_sublist isPySpace).subset hws)
  · exact absurd hb1 (by decide)
  · exact hnl hrn
  · exact absurd hb3 (by decide)
  · exact absurd hc (by decide)
  · exact hnl hd

/-- The distro-mirror marker cannot occur in a rewritten `baseurl` line when it
does not occur in the name-and-bundled-path part: the marker starts with `/`,
which is not whitespace, so it cannot start inside the whitespace prefix. -/
theorem marker_not_infix_rewritten (dn rn : String) (l : List Char)
    (hmk : ¬ ("/cobbler/distro_mirror/" ++ dn).toList <:+:
      (("repo --name=" ++ rn ++ " --baseurl=") ++
        "file:///mnt/source/repo_mirror/" ++ rn).toList) :
    ¬ ("/cobbler/distro_mirror/" ++ dn).toList <:+:
      (String.mk (l.takeWhile isPySpace) ++
        ("repo --name=" ++ rn ++ " --baseurl=") ++
        "file:///mnt/source/repo_mirror/" ++ rn).toList := by
  have hm : ("/cobbler/distro_mirror/" ++ dn).toList =
      '/' :: ("cobbler/distro_mirror/" ++ dn).toList := by
    rw [toList_append, toList_append]
    rfl
  have hsplit : (String.mk (l.takeWhile isPySpace) ++
      ("repo --name=" ++ rn ++ " --baseurl=") ++
      "file:///mnt/source/repo_mirror/" ++ rn).toList =
      l.takeWhile isPySpace ++
        ((("repo --name=" ++ rn ++ " --baseurl=") ++
          "file:///mnt/source/repo_mirror/" ++ rn).toList) := by
    simp only [toList_append, toList_mk, List.append_assoc]
  rw [hsplit, hm]
  rw [hm] at hmk
  exact not_infix_append_ws '/' _ (by decide) _ _
    (fun c hc => List.mem_takeWhile_imp hc) hmk

/-- The per-repository validation-and-rewrite loop on a single valid
repository: the mirror path is recorded under the repository object's name and
the rewrite is applied to the whole document. -/
theorem processRepos_single (env : StandaloneEnv) (d : Descendant) (r : String)
    (obj : RepoObj) (doc : String) (repomap : List (String × String))
    (hfind : env.findRepo r = some obj)
    (hml : obj.mirror_locally = true)
    (hex : env.pathExists (mirrordirOf env.webdir obj) = true) :
    processRepos env d [r] doc repomap =
      .ok (reSubAllLines (repoBaseurlLineRewrite obj.name) doc,
        alSet repomap obj.name (mirrordirOf env.webdir obj)) := by
  simp only [processRepos, hfind, hml, hex]
  simp

/-- `String.mk s.toList = s`. -/
theorem mk_toList (s : String) : String.mk s.toList = s := rfl

/-- `takeWhile` of an all-satisfying run followed by a failing head stops at
the run. -/
theorem takeWhile_ws_cons (ws : List Char) (x : Char) (rest : List Char)
    (hws : ∀ c ∈ ws, isPySpace c = true) (hx : isPySpace x = false) :
    (ws ++ x :: rest).takeWhile isPySpace = ws := by
  induction ws with
  | nil => simp [List.takeWhile_cons, hx]
  | cons a t ih =>
    rw [List.cons_append, List.takeWhile_cons, hws a (List.mem_cons_self a t)]
    simp only [if_true]
    rw [ih (fun c hc => hws c (List.mem_cons_of_mem a hc))]

/-- The whitespace prefix of a rewritten `baseurl` line is the one it was
built from: the text after it starts with the non-whitespace `r`. -/
theorem takeWhile_canonical (ws : List Char) (rn : String)
    (hws : ∀ c ∈ ws, isPySpace c = true) :
    (String.mk ws ++ ("repo --name=" ++ rn ++ " --baseurl=") ++
      "file:///mnt/source/repo_mirror/" ++ rn).toList.takeWhile isPySpace = ws := by
  have h : (String.mk ws ++ ("repo --name=" ++ rn ++ " --baseurl=") ++
      "file:///mnt/source/repo_mirror/" ++ rn).toList =
      ws ++ 'r' :: ("epo --name=" ++ rn ++ " --baseurl=" ++
        "file:///mnt/source/repo_mirror/" ++ rn).toList := by
    simp only [toList_append, toList_mk, List.append_assoc]
    rfl
  rw [h]
  exact takeWhile_ws_cons ws 'r' _ hws (by decide)

/-- Shape invariant of iterated per-repository line rewrites: starting from an
original line (or a line already rewritten for one of the given repositories),
the result is the original line or the rewritten form for one of the given
repositories, with the original whitespace prefix. -/
theorem foldLine_shape (l : List Char) (objs : List RepoObj) :
    ∀ (os : List RepoObj) (x : String),
      (∀ o ∈ os, o ∈ objs) →
      (x = String.mk l ∨ ∃ o ∈ objs, x =
        String.mk (l.takeWhile isPySpace) ++
          ("repo --name=" ++ o.name ++ " --baseurl=") ++
          "file:///mnt/source/repo_mirror/" ++ o.name) →
      (os.foldl (fun t obj => repoBaseurlLineRewrite obj.name t) x = String.mk l ∨
       ∃ o ∈ objs, os.foldl (fun t obj => repoBaseurlLineRewrite obj.name t) x =
        String.mk (l.takeWhile isPySpace) ++
          ("repo --name=" ++ o.name ++ " --baseurl=") ++
          "file:///mnt/source/repo_mirror/" ++ o.name)
  | [], x, _, hx => hx
  | o :: os, x, hmem, hx => by
    have hstep : repoBaseurlLineRewrite o.name x = String.mk l ∨
        ∃ o' ∈ objs, repoBaseurlLineRewrite o.name x =
          String.mk (l.takeWhile isPySpace) ++
            ("repo --name=" ++ o'.name ++ " --baseurl=") ++
            "file:///mnt/source/repo_mirror/" ++ o'.name := by
      rcases hx with rfl | ⟨o1, ho1, rfl⟩
      · rcases repoBaseurlLineRewrite_cases o.name (String.mk l) with hc | hc
        · exact Or.inl hc
        · exact Or.inr ⟨o, hmem o (List.mem_cons_self o os), hc⟩
      · rcases repoBaseurlLineRewrite_cases o.name
          (String.mk (l.takeWhile isPySpace) ++
            ("repo --name=" ++ o1.name ++ " --baseurl=") ++
            "file:///mnt/source/repo_mirror/" ++ o1.name) with hc | hc
        · exact Or.inr ⟨o1, ho1, hc⟩
        · refine Or.inr ⟨o, hmem o (List.mem_cons_self o os), ?_⟩
          rw [hc, takeWhile_canonical (l.takeWhile isPySpace) o1.name
            (fun c hc' => List.mem_takeWhile_imp hc')]
    exact foldLine_shape l objs os _
      (fun o' ho' => hmem o' (List.mem_cons_of_mem o ho')) hstep

/-- The lines of a document rewritten for a list of repositories in turn are
the per-line iterated rewrites of the original lines. -/
theorem foldDoc_lines : ∀ (objs : List RepoObj),
    (∀ o ∈ objs, '\n' ∉ o.name.toList) → ∀ doc : String,
    splitNl (objs.foldl (fun s obj =>
        reSubAllLines (repoBaseurlLineRewrite obj.name) s) doc).toList =
      (splitNl doc.toList).map (fun l =>
        (objs.foldl (fun t obj => repoBaseurlLineRewrite obj.name t)
          (String.mk l)).toList)
  | [], _, doc => by
    simp only [List.foldl_nil]
    rw [List.map_congr_left (fun l _ => toList_mk l), List.map_id']
  | o :: os, hnl, doc => by
    have hline : ∀ l ∈ splitNl doc.toList,
        '\n' ∉ (repoBaseurlLineRewrite o.name (String.mk l)).toList := by
      intro l hl
      have hlnl : '\n' ∉ l := splitChar_not_mem '\n' doc.toList l hl
      rcases repoBaseurlLineRewrite_cases o.name (String.mk l) with hc | hc
      · rw [hc, toList_mk]; exact hlnl
      · rw [hc]
        exact nl_not_mem_rewritten o.name (hnl o (List.mem_cons_self o os)) l hlnl
    rw [List.foldl_cons,
      foldDoc_lines os (fun o' ho' => hnl o' (List.mem_cons_of_mem o ho'))
        (reSubAllLines (repoBaseurlLineRewrite o.name) doc),
      splitNl_reSubAllLines (repoBaseurlLineRewrite o.name) doc hline,
      List.map_map]
    apply List.map_congr_left
    intro l hl
    simp only [Function.comp_apply]
    rw [mk_toList, List.foldl_cons]

/-- The per-repository validation-and-rewrite loop on a list of references that
all validate: every mirror path is recorded under its repository object's name
and the rewrites are applied to the whole document, in order. -/
theorem processRepos_all (env : StandaloneEnv) (d : Descendant)
    (rs : List String) (objs : List RepoObj)
    (h : List.Forall₂ (fun r obj => env.findRepo r = some obj ∧
      obj.mirror_locally = true ∧
      env.pathExists (mirrordirOf env.webdir obj) = true) rs objs) :
    ∀ (doc : String) (repomap : List (String × String)),
    processRepos env d rs doc repomap =
      .ok (objs.foldl (fun s obj =>
          reSubAllLines (repoBaseurlLineRewrite obj.name) s) doc,
        objs.foldl (fun m obj =>
          alSet m obj.name (mirrordirOf env.webdir obj)) repomap) := by
  induction h with
  | nil => intro doc repomap; rfl
  | cons hR h2 ih =>
    intro doc repomap
    obtain ⟨hfind, hml, hex⟩ := hR
    simp only [processRepos, hfind, hml, hex, not_true_eq_false, reduceIte,
      List.foldl_cons]
    exact ih _ _

/-- C6 amended: during an airgapped build, *every* repository referenced by
the descendant's resolved configuration — for profile and system descendants
alike, and for every breed (for redhat after the `url`-to-`cdrom` rewrite) —
is validated in order, its mirror path recorded in the repo-mirror map under
the repository object's name, and *every* line of the generated document
matching `repo --name=<name> --baseurl=` is rewritten to the bundled path (the
`reporegex.sub` call passes no `count`, so later occurrences of a line for the
same repository name are rewritten too, not left unchanged).  The marker
hypotheses keep the distro-mirror split-tree rewrite (a separate spec clause)
out of the picture; repository names are required newline-free. -/
theorem c6_amended_rewrite_all (env : StandaloneEnv) (d : Descendant)
    (distro : Distro) (data : ResolvedData)
    (objs : List RepoObj) (repomap : List (String × String))
    (base doc0 : String)
    (hbase : base =
      (if d.collection_type = "profile" then env.autoinstallData "profile" d.name
       else if d.collection_type = "system" then env.autoinstallData "system" d.name
       else ""))
    (hdoc0 : doc0 = (if distro.breed = "redhat" then cdregexSub base else base))
    (hrepos : List.Forall₂ (fun r obj => env.findRepo r = some obj ∧
      obj.mirror_locally = true ∧
      env.pathExists (mirrordirOf env.webdir obj) = true) data.repos objs)
    (hnl : ∀ obj ∈ objs, '\n' ∉ obj.name.toList)
    (hmarker : ∀ l ∈ splitNl doc0.toList,
      ¬ ("/cobbler/distro_mirror/" ++ distro.name).toList <:+: l)
    (hmk : ∀ obj ∈ objs,
      ¬ ("/cobbler/distro_mirror/" ++ distro.name).toList <:+:
        (("repo --name=" ++ obj.name ++ " --baseurl=") ++
          "file:///mnt/source/repo_mirror/" ++ obj.name).toList) :
    ∃ out : String,
      generateAutoinstallData env d distro true data repomap =
        .ok (out, objs.foldl (fun m obj =>
          alSet m obj.name (mirrordirOf env.webdir obj)) repomap) ∧
      splitNl out.toList =
        (splitNl doc0.toList).map (fun l =>
          (objs.foldl (fun t obj => repoBaseurlLineRewrite obj.name t)
            (String.mk l)).toList) := by
  subst hbase
  subst hdoc0
  have hshape : ∀ l ∈ splitNl (if distro.breed = "redhat"
      then cdregexSub (if d.collection_type = "profile"
        then env.autoinstallData "profile" d.name
        else if d.collection_type = "system" then env.autoinstallData "system" d.name
        else "")
      else (if d.collection_type = "profile" then env.autoinstallData "profile" d.name
        else if d.collection_type = "system" then env.autoinstallData "system" d.name
        else "")).toList,
      (objs.foldl (fun t obj => repoBaseurlLineRewrite obj.name t)
          (String.mk l) = String.mk l ∨
        ∃ o ∈ objs, objs.foldl (fun t obj => repoBaseurlLineRewrite obj.name t)
            (String.mk l) =
          String.mk (l.takeWhile isPySpace) ++
            ("repo --name=" ++ o.name ++ " --baseurl=") ++
            "file:///mnt/source/repo_mirror/" ++ o.name) :=
    fun l _ => foldLine_shape l objs objs (String.mk l) (fun _ ho => ho)
      (Or.inl rfl)
  have hmid := foldDoc_lines objs hnl (if distro.breed = "redhat"
    then cdregexSub (if d.collection_type = "profile"
      then env.autoinstallData "profile" d.name
      else if d.collection_type = "system" then env.autoinstallData "system" d.name
      else "")
    else (if d.collection_type = "profile" then env.autoinstallData "profile" d.name
      else if d.collection_type = "system" then env.autoinstallData "system" d.name
      else ""))
  have hlines2 : ∀ l' ∈ splitNl (objs.foldl (fun s obj =>
      reSubAllLines (repoBaseurlLineRewrite obj.name) s)
      (if distro.breed = "redhat"
        then cdregexSub (if d.collection_type = "profile"
          then env.autoinstallData "profile" d.name
          else if d.collection_type = "system" then env.autoinstallData "system" d.name
          else "")
        else (if d.collection_type = "profile" then env.autoinstallData "profile" d.name
          else if d.collection_type = "system" then env.autoinstallData "system" d.name
          else ""))).toList,
      ¬ ("/cobbler/distro_mirror/" ++ distro.name).toList <:+: l' ∧ '\n' ∉ l' := by
    rw [hmid]
    intro l' hl'
    rcases List.mem_map.mp hl' with ⟨l, hl, rfl⟩
    have hlnl : '\n' ∉ l := splitChar_not_mem '\n' _ l hl
    rcases hshape l hl with hc | ⟨o, ho, hc⟩
    · rw [hc, toList_mk]
      exact ⟨hmarker l hl, hlnl⟩
    · rw [hc]
      exact ⟨marker_not_infix_rewritten distro.name o.name l (hmk o ho),
        nl_not_mem_rewritten o.name (hnl o ho) l hlnl⟩
  have hsrc : ∀ l' ∈ splitNl (objs.foldl (fun s obj =>
      reSubAllLines (repoBaseurlLineRewrite obj.name) s)
      (if distro.breed = "redhat"
        then cdregexSub (if d.collection_type = "profile"
          then env.autoinstallData "profile" d.name
          else if d.collection_type = "system" then env.autoinstallData "system" d.name
          else "")
        else (if d.collection_type = "profile" then env.autoinstallData "profile" d.name
          else if d.collection_type = "system" then env.autoinstallData "system" d.name
          else ""))).toList,
      srcRepoLineRewrite distro.name (String.mk l') = String.mk l' := by
    intro l' hl'
    exact srcRepoLineRewrite_id distro.name (String.mk l')
      (by rw [toList_mk]; exact (hlines2 l' hl').1)
  have hfin : splitNl (reSubAllLines (srcRepoLineRewrite distro.name)
      (objs.foldl (fun s obj =>
        reSubAllLines (repoBaseurlLineRewrite obj.name) s)
        (if distro.breed = "redhat"
          then cdregexSub (if d.collection_type = "profile"
            then env.autoinstallData "profile" d.name
            else if d.collection_type = "system" then env.autoinstallData "system" d.name
            else "")
          else (if d.collection_type = "profile" then env.autoinstallData "profile" d.name
            else if d.collection_type = "system" then env.autoinstallData "system" d.name
            else "")))).toList =
      splitNl (objs.foldl (fun s obj =>
        reSubAllLines (repoBaseurlLineRewrite obj.name) s)
        (if distro.breed = "redhat"
          then cdregexSub (if d.collection_type = "profile"
            then env.autoinstallData "profile" d.name
            else if d.collection_type = "system" then env.autoinstallData "system" d.name
            else "")
          else (if d.collection_type = "profile" then env.autoinstallData "profile" d.name
            else if d.collection_type = "system" then env.autoinstallData "system" d.name
            else ""))).toList := by
    rw [splitNl_reSubAllLines (srcRepoLineRewrite distro.name) _
      (fun l' hl' => by
        rw [hsrc l' hl', toList_mk]
        exact (hlines2 l' hl').2)]
    have hcongr : ∀ l' ∈ splitNl (objs.foldl (fun s obj =>
        reSubAllLines (repoBaseurlLineRewrite obj.name) s)
        (if distro.breed = "redhat"
          then cdregexSub (if d.collection_type = "profile"
            then env.autoinstallData "profile" d.name
            else if d.collection_type = "system" then env.autoinstallData "system" d.name
            else "")
          else (if d.collection_type = "profile" then env.autoinstallData "profile" d.name
            else if d.collection_type = "system" then env.autoinstallData "system" d.name
            else ""))).toList,
        (srcRepoLineRewrite distro.name (String.mk l')).toList = l' := by
      intro l' hl'
      rw [hsrc l' hl', toList_mk]
    rw [List.map_congr_left hcongr, List.map_id']
  refine ⟨reSubAllLines (srcRepoLineRewrite distro.name)
    (objs.foldl (fun s obj =>
      reSubAllLines (repoBaseurlLineRewrite obj.name) s)
      (if distro.breed = "redhat"
        then cdregexSub (if d.collection_type = "profile"
          then env.autoinstallData "profile" d.name
          else if d.collection_type = "system" then env.autoinstallData "system" d.name
          else "")
        else (if d.collection_type = "profile" then env.autoinstallData "profile" d.name
          else if d.collection_type = "system" then env.autoinstallData "system" d.name
          else ""))), ?_, ?_⟩
  · unfold generateAutoinstallData
    dsimp only
    simp only [reduceIte]
    rw [processRepos_all env d data.repos objs hrepos]
    rfl
  · rw [hfin, hmid]

/-- C6 counterexample: with a generated document holding *two*
`repo --name=r1 --baseurl=` lines, the airgapped rewrite changes both — the
claim predicts the second occurrence is left unchanged
(`repo --name=r1 --baseurl=http://b`), but the `count`-less `reporegex.sub`
rewrites it as well. -/
theorem c6_counterexample :
    (generateAutoinstallData c6Env c6Desc c6Distro true (c6Env.blender "p1")
      []).map Prod.fst =
      .ok ("repo --name=r1 --baseurl=file:///mnt/source/repo_mirror/r1\n" ++
        "repo --name=r1 --baseurl=file:///mnt/source/repo_mirror/r1\nx") ∧
    ("repo --name=r1 --baseurl=file:///mnt/source/repo_mirror/r1\n" ++
        "repo --name=r1 --baseurl=file:///mnt/source/repo_mirror/r1\nx" : String) ≠
      ("repo --name=r1 --baseurl=file:///mnt/source/repo_mirror/r1\n" ++
        "repo --name=r1 --baseurl=http://b\nx") := by
  exact ⟨rfl, by decide⟩

/-- Witness for the C6 amended theorem on the concrete airgap scenario. -/
theorem c6_amended_rewrite_all_witness :
    ∃ out : String,
      generateAutoinstallData c6Env c6Desc c6Distro true (c6Env.blender "p1") [] =
        .ok (out, [(⟨"r1", true⟩ : RepoObj)].foldl (fun m obj =>
          alSet m obj.name (mirrordirOf c6Env.webdir obj)) []) ∧
      splitNl out.toList =
        (splitNl (c6Env.autoinstallData "profile" c6Desc.name).toList).map
          (fun l => ([(⟨"r1", true⟩ : RepoObj)].foldl
            (fun t obj => repoBaseurlLineRewrite obj.name t)
            (String.mk l)).toList) :=
  c6_amended_rewrite_all c6Env c6Desc c6Distro (c6Env.blender "p1")
    [⟨"r1", true⟩] [] (c6Env.autoinstallData "profile" c6Desc.name)
    (c6Env.autoinstallData "profile" c6Desc.name) rfl rfl
    (List.Forall₂.cons ⟨rfl, rfl, rfl⟩ List.Forall₂.nil)
    (by decide) (by decide) (by decide)

/-! ## Lemmas for the airgapped atomicity claim -/

/-- Strings with equal character data are equal. -/
theorem strExt : ∀ {a b : String}, a.data = b.data → a = b
  | ⟨_⟩, ⟨_⟩, rfl => rfl

/-- Distinct descendant names give distinct per-descendant file paths. -/
theorem pathJoin_cfg_ne (iso n : String) (hn : n ≠ "isolinux") :
    pathJoin iso (n ++ ".cfg") ≠ pathJoin iso "isolinux.cfg" := by
  intro h
  apply hn
  unfold pathJoin at h
  have h2 := congrArg String.data h
  rw [String.data_append, String.data_append, String.data_append,
    String.data_append] at h2
  have h3 := List.append_cancel_left h2
  rw [show "isolinux.cfg".data = "isolinux".data ++ ".cfg".data from rfl] at h3
  have h4 := List.append_cancel_right h3
  exact strExt h4

/-- A failing repository check anywhere in the list makes the validation loop
raise. -/
theorem processRepos_error (env : StandaloneEnv) (d : Descendant) :
    ∀ (repos : List String) (r : String), r ∈ repos →
      repoChecksPass env r = false →
      ∀ doc repomap, ∃ e, processRepos env d repos doc repomap = .error e := by
  intro repos
  induction repos with
  | nil => intro r hr; cases hr
  | cons a rest ih =>
    intro r hr hfail doc repomap
    cases hfa : env.findRepo a with
    | none =>
      exact ⟨airgapErrMsg d.collection_type d.name a "does not exist",
        by simp [processRepos, hfa]⟩
    | some obj =>
      by_cases hml : obj.mirror_locally
      · by_cases hex : env.pathExists (mirrordirOf env.webdir obj)
        · rcases List.mem_cons.mp hr with rfl | hr2
          · rw [repoChecksPass, hfa] at hfail
            simp [hml, hex] at hfail
          · simp only [processRepos, hfa, hml, hex, not_true, if_neg,
              Bool.not_true, reduceIte]
            exact ih r hr2 hfail _ _
        · exact ⟨airgapErrMsg d.collection_type d.name a
            "has a missing local mirror directory",
            by simp [processRepos, hfa, hml, hex]⟩
      · exact ⟨airgapErrMsg d.collection_type d.name a
          "is not configured for local mirroring",
          by simp [processRepos, hfa, hml]⟩

/-- When every repository before `r` passes validation and `r` has a missing
mirror directory, the loop raises the error naming the descendant and `r`. -/
theorem processRepos_first_fail (env : StandaloneEnv) (d : Descendant) :
    ∀ (rpre : List String), (∀ x ∈ rpre, repoChecksPass env x = true) →
      ∀ (r : String) (rpost : List String) (obj : RepoObj),
        env.findRepo r = some obj → obj.mirror_locally = true →
        env.pathExists (mirrordirOf env.webdir obj) = false →
        ∀ doc repomap, processRepos env d (rpre ++ r :: rpost) doc repomap =
          .error (airgapErrMsg d.collection_type d.name r
            "has a missing local mirror directory") := by
  intro rpre
  induction rpre with
  | nil =>
    intro _ r rpost obj hfind hml hex doc repomap
    simp [processRepos, hfind, hml, hex]
  | cons a t ih =>
    intro hpre r rpost obj hfind hml hex doc repomap
    have hpa := hpre a (List.mem_cons_self a t)
    cases hfa : env.findRepo a with
    | none => rw [repoChecksPass, hfa] at hpa; cases hpa
    | some o =>
      rw [repoChecksPass, hfa] at hpa
      have h1 : o.mirror_locally = true := by
        rcases Bool.and_eq_true_iff.mp (by simpa using hpa) with ⟨x, _⟩
        exact x
      have h2 : env.pathExists (mirrordirOf env.webdir o) = true := by
        rcases Bool.and_eq_true_iff.mp (by simpa using hpa) with ⟨_, x⟩
        exact x
      simp only [List.cons_append, processRepos, hfa, h1, h2, Bool.not_true,
        reduceIte]
      exact ih (fun x hx => hpre x (List.mem_cons_of_mem a hx)) r rpost obj
        hfind hml hex _ _

/-- With `kernel_options` present, the standalone append-line generator cannot
raise, and it leaves every field of the data except `kernel_options`
unchanged (in particular the `repos` list). -/
theorem generateAppendLineStandalone_ok (data : ResolvedData) (distro : Distro)
    (n : String) (ko : List (String × KOptVal))
    (hko : data.kernel_options = some ko) :
    ∃ line data', generateAppendLineStandalone data distro n = .ok (line, data') ∧
      data'.repos = data.repos ∧ data'.kernel_options.isSome = true := by
  have hks : data.kernel_options.isSome = true := by rw [hko]; rfl
  unfold generateAppendLineStandalone
  by_cases h1 : distro.breed = "redhat"
  · by_cases h2 : distro.os_version ∈ ["rhel4", "rhel5", "rhel6", "fedora16"] <;>
      · simp only [h1, h2, reduceIte, req, hko, exceptPure, exceptBindOk]
        exact ⟨_, _, rfl, rfl, hks⟩
  · by_cases h3 : distro.breed = "suse"
    · by_cases h4 : (alGet ko "install").isSome <;>
        · simp only [h1, h3, h4, reduceIte, req, hko, exceptPure, exceptBindOk,
            Bool.false_eq_true]
          exact ⟨_, _, rfl, rfl, by first | rfl | exact hks⟩
    · by_cases h5 : distro.breed = "ubuntu" ∨ distro.breed = "debian"
      · simp only [h1, h3, h5, reduceIte, req, hko, exceptPure, exceptBindOk]
        exact ⟨_, _, rfl, rfl, hks⟩
      · simp only [h1, h3, h5, reduceIte, req, hko, exceptPure, exceptBindOk]
        exact ⟨_, _, rfl, rfl, hks⟩

/-- Inversion for a successful `Except` bind. -/
theorem exceptBindOkIff {ε α β : Type} (x : Except ε α) (f : α → Except ε β)
    (b : β) : (x >>= f) = .ok b ↔ ∃ a, x = .ok a ∧ f a = .ok b := by
  cases x with
  | ok a => simp [exceptBindOk]
  | error e => simp [exceptBindErr]

/-- A successful descendant step only appends the write of that descendant's
own `<name>.cfg` file to the effects. -/
theorem generateDescendant_ok_shape (env : StandaloneEnv) (distro : Distro)
    (air : Bool) (iso : String) (acc : StandaloneAcc) (d : Descendant)
    (acc1 : StandaloneAcc)
    (h : generateDescendant env distro air iso acc d = .ok acc1) :
    ∃ c, acc1.effects = acc.effects ++
      [.writeFile (pathJoin iso (d.name ++ ".cfg")) c] := by
  simp only [generateDescendant] at h
  rcases (exceptBindOkIff _ _ _).mp h with ⟨ko, _, h2⟩
  try simp only at h2
  rcases (exceptBindOkIff _ _ _).mp h2 with ⟨p, _, h3⟩
  obtain ⟨line, data3⟩ := p
  try simp only at h3
  rcases (exceptBindOkIff _ _ _).mp h3 with ⟨q, _, h4⟩
  obtain ⟨ad, rm⟩ := q
  try simp only at h4
  exact ⟨ad, by rw [← Except.ok.inj h4]⟩

/-- With `kernel_options` present and the first failing repository of the
descendant having a missing mirror directory, the descendant step raises
exactly the error naming the descendant and that repository. -/
theorem generateDescendant_first_fail (env : StandaloneEnv) (distro : Distro)
    (iso : String) (acc : StandaloneAcc) (d : Descendant)
    (ko : List (String × KOptVal))
    (hko : (env.blender d.name).kernel_options = some ko)
    (rpre : List String) (r : String) (rpost : List String) (obj : RepoObj)
    (hrepos : (env.blender d.name).repos = rpre ++ r :: rpost)
    (hrpre : ∀ x ∈ rpre, repoChecksPass env x = true)
    (hfind : env.findRepo r = some obj)
    (hml : obj.mirror_locally = true)
    (hex : env.pathExists (mirrordirOf env.webdir obj) = false) :
    generateDescendant env distro true iso acc d =
      .error (airgapErrMsg d.collection_type d.name r
        "has a missing local mirror directory") := by
  simp only [generateDescendant]
  rw [hko]
  simp only [req, exceptBindOk]
  obtain ⟨line, data3, hal, hrep3, _⟩ := generateAppendLineStandalone_ok
    { env.blender d.name with
      kernel_options := some (kopts_overwrite ko distro.breed) }
    distro d.name (kopts_overwrite ko distro.breed) rfl
  rw [hal]
  simp only [exceptBindOk]
  have hr3 : data3.repos = rpre ++ r :: rpost := by
    rw [hrep3]
    exact hrepos
  simp only [generateAutoinstallData, hr3, reduceIte]
  rw [processRepos_first_fail env d rpre hrpre r rpost obj hfind hml hex]
  rfl

/-- Splitting the descendant loop at a list append. -/
theorem runDescendants_append (env : StandaloneEnv) (distro : Distro) (air : Bool)
    (iso : String) (pf : List String) (l1 l2 : List Descendant) :
    ∀ acc, runDescendants env distro air iso pf (l1 ++ l2) acc =
      match runDescendants env distro air iso pf l1 acc with
      | (acc', none) => runDescendants env distro air iso pf l2 acc'
      | (acc', some e) => (acc', some e) := by
  induction l1 with
  | nil => intro acc; simp [runDescendants]
  | cons a t ih =>
    intro acc
    simp only [List.cons_append, runDescendants]
    by_cases hskip : skippedByFilter pf a = true
    · rw [if_pos hskip, if_pos hskip]
      exact ih acc
    · rw [if_neg hskip, if_neg hskip]
      cases hg : generateDescendant env distro air iso acc a with
      | ok acc1 => exact ih acc1
      | error e => rfl

/-- Every effect reachable through the descendant loop is either an incoming
effect or the write of one descendant's own `<name>.cfg` file. -/
theorem runDescendants_effects (env : StandaloneEnv) (distro : Distro)
    (air : Bool) (iso : String) (pf : List String) :
    ∀ (l : List Descendant) (acc : StandaloneAcc) (eff : IsoEffect),
      eff ∈ (runDescendants env distro air iso pf l acc).1.effects →
      eff ∈ acc.effects ∨ ∃ d ∈ l, ∃ c,
        eff = .writeFile (pathJoin iso (d.name ++ ".cfg")) c := by
  intro l
  induction l with
  | nil =>
    intro acc eff h
    simp only [runDescendants] at h
    exact Or.inl h
  | cons a t ih =>
    intro acc eff h
    simp only [runDescendants] at h
    by_cases hskip : skippedByFilter pf a = true
    · rw [if_pos hskip] at h
      rcases ih acc eff h with h1 | ⟨d, hd, c, hc⟩
      · exact Or.inl h1
      · exact Or.inr ⟨d, List.mem_cons_of_mem a hd, c, hc⟩
    · rw [if_neg hskip] at h
      cases hg : generateDescendant env distro air iso acc a with
      | error e =>
        rw [hg] at h
        exact Or.inl h
      | ok acc1 =>
        rw [hg] at h
        rcases ih acc1 eff h with h1 | ⟨d, hd, c, hc⟩
        · obtain ⟨c, hc⟩ := generateDescendant_ok_shape env distro air iso acc a acc1 hg
          rw [hc] at h1
          rcases List.mem_append.mp h1 with h2 | h2
          · exact Or.inl h2
          · exact Or.inr ⟨a, List.mem_cons_self a t, c, List.mem_singleton.mp h2⟩
        · exact Or.inr ⟨d, List.mem_cons_of_mem a hd, c, hc⟩

/-! ## Claim C7 -/

/-- C7: for an airgapped standalone build in which a descendant references a
repository whose local mirror directory does not exist (all earlier descendants
and repositories validating fine), the build aborts with the error naming that
descendant and repository; no repository copy (`rsync` into the media
`repo_mirror` staging directory) has begun, and the boot-menu document
`isolinux.cfg` has not been written — its write and the repository
synchronization both happen only after the whole descendant loop succeeded. -/
theorem c7_airgapped_failure_atomic
    (env : StandaloneEnv) (pf : List String) (dn fs iso tmpl : String)
    (distro : Distro) (pre post : List Descendant) (d : Descendant)
    (acc1 : StandaloneAcc) (ko : List (String × KOptVal))
    (rpre rpost : List String) (r : String) (obj : RepoObj)
    (hfd : env.findDistro dn = some distro)
    (hch : env.children dn = pre ++ d :: post)
    (hpre : runDescendants env distro true iso pf pre
      ⟨[tmpl], [], [.copyBootFiles distro.name]⟩ = (acc1, none))
    (hskip : skippedByFilter pf d = false)
    (hko : (env.blender d.name).kernel_options = some ko)
    (hrepos : (env.blender d.name).repos = rpre ++ r :: rpost)
    (hrpre : ∀ x ∈ rpre, repoChecksPass env x = true)
    (hfind : env.findRepo r = some obj)
    (hml : obj.mirror_locally = true)
    (hex : env.pathExists (mirrordirOf env.webdir obj) = false)
    (hnames : ∀ d' ∈ env.children dn, d'.name ≠ "isolinux") :
    generateStandaloneIso env pf dn fs true iso tmpl =
      (acc1.effects, some (airgapErrMsg d.collection_type d.name r
        "has a missing local mirror directory")) ∧
    (∀ eff ∈ acc1.effects, eff.isRepoCopy = false) ∧
    (∀ c, IsoEffect.writeFile (pathJoin iso "isolinux.cfg") c ∉ acc1.effects) := by
  have heff : ∀ eff ∈ acc1.effects,
      eff ∈ [IsoEffect.copyBootFiles distro.name] ∨ ∃ d' ∈ pre, ∃ c,
        eff = .writeFile (pathJoin iso (d'.name ++ ".cfg")) c := by
    intro eff he
    have h1 := runDescendants_effects env distro true iso pf pre
      ⟨[tmpl], [], [.copyBootFiles distro.name]⟩ eff (by rw [hpre]; exact he)
    exact h1
  refine ⟨?_, ?_, ?_⟩
  · simp only [generateStandaloneIso, hfd, hch]
    rw [runDescendants_append, hpre]
    simp only [runDescendants, hskip, Bool.false_eq_true, reduceIte]
    rw [generateDescendant_first_fail env distro iso acc1 d ko hko rpre r rpost
      obj hrepos hrpre hfind hml hex]
  · intro eff he
    rcases heff eff he with h1 | ⟨d', _, c, hc⟩
    · rw [List.mem_singleton.mp h1]
      rfl
    · rw [hc]
      rfl
  · intro c hmem
    rcases heff _ hmem with h1 | ⟨d', hd', c', hc'⟩
    · exact absurd (List.mem_singleton.mp h1) (by simp)
    · have hne := pathJoin_cfg_ne iso d'.name
        (hnames d' (by rw [hch]; exact List.mem_append_left _ hd'))
      exact hne (IsoEffect.writeFile.inj hc'.symm).1

/-- Witness for C7 on the concrete failing scenario. -/
theorem c7_airgapped_failure_atomic_witness :
    generateStandaloneIso c7Env [] "d1" "/src" true "/build/isolinux" "T" =
      ([IsoEffect.copyBootFiles "d1"],
        some (airgapErrMsg c6Desc.collection_type c6Desc.name "r1"
          "has a missing local mirror directory")) ∧
    (∀ eff ∈ [IsoEffect.copyBootFiles "d1"], eff.isRepoCopy = false) ∧
    (∀ c, IsoEffect.writeFile (pathJoin "/build/isolinux" "isolinux.cfg") c ∉
      ([IsoEffect.copyBootFiles "d1"] : List IsoEffect)) :=
  c7_airgapped_failure_atomic c7Env [] "d1" "/src" "/build/isolinux" "T"
    c6Distro [] [] c6Desc ⟨["T"], [], [.copyBootFiles "d1"]⟩ [] [] [] "r1"
    ⟨"r1", true⟩ rfl rfl rfl (by decide) rfl rfl
    (fun x hx => absurd hx (List.not_mem_nil x)) rfl rfl (by decide) (by decide)

/-! ## Lemmas for the static-network pipeline -/

/-- The generic override extraction succeeds whenever `kernel_options` is
present, and the result is the input or the stored override. -/
theorem koptOverride_shape (b : AppendBuilder) (ko : List (String × KOptVal))
    (key : String) (set : AppendBuilder → Option KOptVal → AppendBuilder)
    (hko : b.data.kernel_options = some ko) :
    ∃ b', koptOverride b key set = .ok b' ∧
      (b' = b ∨ ∃ v, b' =
        set { b with data := { b.data with
          kernel_options := some (alDel ko key) } } v) := by
  unfold koptOverride
  simp only [AppendBuilder.getKopts, req, hko, exceptBindOk]
  cases hv : alGet ko key with
  | none => exact ⟨b, rfl, Or.inl rfl⟩
  | some v =>
    by_cases hne : v = KOptVal.str ""
    · simp only [hne, ne_eq, not_true_eq_false, reduceIte]
      exact ⟨b, rfl, Or.inl rfl⟩
    · simp only [ne_eq, hne, not_false_eq_true, reduceIte]
      exact ⟨_, rfl, Or.inr ⟨_, rfl⟩⟩

/-- With no family interface-override keys in `kernel_options`, the interface
extraction step is the identity. -/
theorem genIface_id (b : AppendBuilder) (ko : List (String × KOptVal))
    (hko : b.data.kernel_options = some ko)
    (h1 : alGet ko "ksdevice" = none)
    (h2 : alGet ko "netdevice" = none)
    (h3 : alGet ko "netcfg/choose_interface" = none) :
    generateStaticIpBootInterface b = .ok b := by
  unfold generateStaticIpBootInterface
  cases hd : b.dist with
  | none => rfl
  | some dist =>
    by_cases hr : dist.breed = "redhat"
    · simp [hr, AppendBuilder.getKopts, req, hko, h1, exceptBindOk]
    · by_cases hs : dist.breed = "suse"
      · simp [hr, hs, koptOverride, AppendBuilder.getKopts, req, hko, h2,
          exceptBindOk]
      · by_cases hdu : dist.breed = "debian" ∨ dist.breed = "ubuntu"
        · simp [hr, hs, hdu, koptOverride, AppendBuilder.getKopts, req, hko,
            h3, exceptBindOk]
        · simp [hr, hs, hdu]

/-- The IP extraction step succeeds and preserves everything but `system_ip`
and the consumed key. -/
theorem genIp_shape (b : AppendBuilder) (ko : List (String × KOptVal))
    (hko : b.data.kernel_options = some ko) :
    ∃ b', generateStaticIpBootIp b = .ok b' ∧ BuilderOkStep b b' ∧
      b'.append_line = b.append_line ∧
      b'.system_netmask = b.system_netmask := by
  have hks : b.data.kernel_options.isSome = true := by rw [hko]; rfl
  have hgen : ∀ key : String,
      ∃ b', koptOverride b key (fun b0 v => { b0 with system_ip := v }) = .ok b' ∧
        BuilderOkStep b b' ∧ b'.append_line = b.append_line ∧
        b'.system_netmask = b.system_netmask := by
    intro key
    obtain ⟨b', hb', hc⟩ := koptOverride_shape b ko key
      (fun b0 v => { b0 with system_ip := v }) hko
    refine ⟨b', hb', ?_⟩
    rcases hc with rfl | ⟨v, rfl⟩
    · exact ⟨⟨rfl, rfl, rfl, rfl, rfl, rfl, rfl, hks⟩, rfl, rfl⟩
    · exact ⟨⟨rfl, rfl, rfl, rfl, rfl, rfl, rfl, rfl⟩, rfl, rfl⟩
  unfold generateStaticIpBootIp
  cases hd : b.dist with
  | none => exact ⟨b, rfl, ⟨rfl, rfl, rfl, rfl, rfl, rfl, rfl, hks⟩, rfl, rfl⟩
  | some dist =>
    simp only [Option.some.injEq]
    by_cases hr : dist.breed = "redhat"
    · rw [if_pos hr]
      exact hgen "ip"
    · rw [if_neg hr]
      by_cases hs : dist.breed = "suse"
      · rw [if_pos hs]
        exact hgen "hostip"
      · rw [if_neg hs]
        by_cases hdu : dist.breed = "debian" ∨ dist.breed = "ubuntu"
        · rw [if_pos hdu]
          exact hgen "netcfg/get_ipaddress"
        · rw [if_neg hdu]
          exact ⟨b, rfl, ⟨rfl, rfl, rfl, rfl, rfl, rfl, rfl, hks⟩, rfl, rfl⟩

/-- With no `ip` override keys in `kernel_options`, the IP extraction step is
the identity. -/
theorem genIp_id (b : AppendBuilder) (ko : List (String × KOptVal))
    (hko : b.data.kernel_options = some ko)
    (h1 : alGet ko "ip" = none)
    (h2 : alGet ko "hostip" = none)
    (h3 : alGet ko "netcfg/get_ipaddress" = none) :
    generateStaticIpBootIp b = .ok b := by
  unfold generateStaticIpBootIp
  cases hd : b.dist with
  | none => rfl
  | some dist =>
    simp only [Option.some.injEq]
    by_cases hr : dist.breed = "redhat"
    · rw [if_pos hr]
      simp [koptOverride, AppendBuilder.getKopts, req, hko, h1, exceptBindOk]
    · rw [if_neg hr]
      by_cases hs : dist.breed = "suse"
      · rw [if_pos hs]
        simp [koptOverride, AppendBuilder.getKopts, req, hko, h2, exceptBindOk]
      · rw [if_neg hs]
        by_cases hdu : dist.breed = "debian" ∨ dist.breed = "ubuntu"
        · rw [if_pos hdu]
          simp [koptOverride, AppendBuilder.getKopts, req, hko, h3, exceptBindOk]
        · rw [if_neg hdu]

/-- With no `netmask` override keys in `kernel_options`, the netmask
extraction step is the identity. -/
theorem genMask_id (b : AppendBuilder) (ko : List (String × KOptVal))
    (hko : b.data.kernel_options = some ko)
    (h1 : alGet ko "netmask" = none)
    (h2 : alGet ko "netcfg/get_netmask" = none) :
    generateStaticIpBootMask b = .ok b := by
  unfold generateStaticIpBootMask
  cases hd : b.dist with
  | none => rfl
  | some dist =>
    simp only [Option.some.injEq]
    by_cases hsr : dist.breed = "suse" ∨ dist.breed = "redhat"
    · rw [if_pos hsr]
      simp [koptOverride, AppendBuilder.getKopts, req, hko, h1, exceptBindOk]
    · rw [if_neg hsr]
      by_cases hdu : dist.breed = "debian" ∨ dist.breed = "ubuntu"
      · rw [if_pos hdu]
        simp [koptOverride, AppendBuilder.getKopts, req, hko, h2, exceptBindOk]
      · rw [if_neg hdu]

/-- The netmask extraction step succeeds and preserves everything but
`system_netmask` and the consumed key. -/
theorem genMask_shape (b : AppendBuilder) (ko : List (String × KOptVal))
    (hko : b.data.kernel_options = some ko) :
    ∃ b', generateStaticIpBootMask b = .ok b' ∧ BuilderOkStep b b' ∧
      b'.append_line = b.append_line ∧
      b'.system_ip = b.system_ip := by
  have hks : b.data.kernel_options.isSome = true := by rw [hko]; rfl
  have hgen : ∀ key : String,
      ∃ b', koptOverride b key (fun b0 v => { b0 with system_netmask := v }) = .ok b' ∧
        BuilderOkStep b b' ∧ b'.append_line = b.append_line ∧
        b'.system_ip = b.system_ip := by
    intro key
    obtain ⟨b', hb', hc⟩ := koptOverride_shape b ko key
      (fun b0 v => { b0 with system_netmask := v }) hko
    refine ⟨b', hb', ?_⟩
    rcases hc with rfl | ⟨v, rfl⟩
    · exact ⟨⟨rfl, rfl, rfl, rfl, rfl, rfl, rfl, hks⟩, rfl, rfl⟩
    · exact ⟨⟨rfl, rfl, rfl, rfl, rfl, rfl, rfl, rfl⟩, rfl, rfl⟩
  unfold generateStaticIpBootMask
  cases hd : b.dist with
  | none => exact ⟨b, rfl, ⟨rfl, rfl, rfl, rfl, rfl, rfl, rfl, hks⟩, rfl, rfl⟩
  | some dist =>
    simp only [Option.some.injEq]
    by_cases hsr : dist.breed = "suse" ∨ dist.breed = "redhat"
    · rw [if_pos hsr]
      exact hgen "netmask"
    · rw [if_neg hsr]
      by_cases hdu : dist.breed = "debian" ∨ dist.breed = "ubuntu"
      · rw [if_pos hdu]
        exact hgen "netcfg/get_netmask"
      · rw [if_neg hdu]
        exact ⟨b, rfl, ⟨rfl, rfl, rfl, rfl, rfl, rfl, rfl, hks⟩, rfl, rfl⟩

/-- The gateway extraction step succeeds and preserves everything but
`system_gw` and the consumed key. -/
theorem genGw_shape (b : AppendBuilder) (ko : List (String × KOptVal))
    (hko : b.data.kernel_options = some ko) :
    ∃ b', generateStaticIpBootGateway b = .ok b' ∧ BuilderOkStep b b' ∧
      b'.append_line = b.append_line ∧
      b'.system_ip = b.system_ip ∧ b'.system_netmask = b.system_netmask := by
  have hks : b.data.kernel_options.isSome = true := by rw [hko]; rfl
  have hgen : ∀ key : String,
      ∃ b', koptOverride b key (fun b0 v => { b0 with system_gw := v }) = .ok b' ∧
        BuilderOkStep b b' ∧ b'.append_line = b.append_line ∧
        b'.system_ip = b.system_ip ∧ b'.system_netmask = b.system_netmask := by
    intro key
    obtain ⟨b', hb', hc⟩ := koptOverride_shape b ko key
      (fun b0 v => { b0 with system_gw := v }) hko
    refine ⟨b', hb', ?_⟩
    rcases hc with rfl | ⟨v, rfl⟩
    · exact ⟨⟨rfl, rfl, rfl, rfl, rfl, rfl, rfl, hks⟩, rfl, rfl, rfl⟩
    · exact ⟨⟨rfl, rfl, rfl, rfl, rfl, rfl, rfl, rfl⟩, rfl, rfl, rfl⟩
  unfold generateStaticIpBootGateway
  cases hd : b.dist with
  | none => exact ⟨b, rfl, ⟨rfl, rfl, rfl, rfl, rfl, rfl, rfl, hks⟩, rfl, rfl, rfl⟩
  | some dist =>
    simp only [Option.some.injEq]
    by_cases hsr : dist.breed = "suse" ∨ dist.breed = "redhat"
    · rw [if_pos hsr]
      exact hgen "gateway"
    · rw [if_neg hsr]
      by_cases hdu : dist.breed = "debian" ∨ dist.breed = "ubuntu"
      · rw [if_pos hdu]
        exact hgen "netcfg/get_gateway"
      · rw [if_neg hdu]
        exact ⟨b, rfl, ⟨rfl, rfl, rfl, rfl, rfl, rfl, rfl, hks⟩, rfl, rfl, rfl⟩

/-- The DNS extraction step succeeds and preserves everything but `system_dns`
and the consumed key. -/
theorem genDns_shape (b : AppendBuilder) (ko : List (String × KOptVal))
    (hko : b.data.kernel_options = some ko) :
    ∃ b', generateStaticIpBootDns b = .ok b' ∧ BuilderOkStep b b' ∧
      b'.append_line = b.append_line ∧
      b'.system_ip = b.system_ip ∧ b'.system_netmask = b.system_netmask := by
  have hks : b.data.kernel_options.isSome = true := by rw [hko]; rfl
  have hgen : ∀ key : String,
      ∃ b', koptOverride b key (fun b0 v => { b0 with system_dns := v }) = .ok b' ∧
        BuilderOkStep b b' ∧ b'.append_line = b.append_line ∧
        b'.system_ip = b.system_ip ∧ b'.system_netmask = b.system_netmask := by
    intro key
    obtain ⟨b', hb', hc⟩ := koptOverride_shape b ko key
      (fun b0 v => { b0 with system_dns := v }) hko
    refine ⟨b', hb', ?_⟩
    rcases hc with rfl | ⟨v, rfl⟩
    · exact ⟨⟨rfl, rfl, rfl, rfl, rfl, rfl, rfl, hks⟩, rfl, rfl, rfl⟩
    · exact ⟨⟨rfl, rfl, rfl, rfl, rfl, rfl, rfl, rfl⟩, rfl, rfl, rfl⟩
  unfold generateStaticIpBootDns
  cases hd : b.dist with
  | none => exact ⟨b, rfl, ⟨rfl, rfl, rfl, rfl, rfl, rfl, rfl, hks⟩, rfl, rfl, rfl⟩
  | some dist =>
    simp only [Option.some.injEq]
    by_cases hr : dist.breed = "redhat"
    · rw [if_pos hr]
      exact hgen "dns"
    · rw [if_neg hr]
      by_cases hs : dist.breed = "suse"
      · rw [if_pos hs]
        exact hgen "nameserver"
      · rw [if_neg hs]
        by_cases hdu : dist.breed = "debian" ∨ dist.breed = "ubuntu"
        · rw [if_pos hdu]
          exact hgen "netcfg/get_nameservers"
        · rw [if_neg hdu]
          exact ⟨b, rfl, ⟨rfl, rfl, rfl, rfl, rfl, rfl, rfl, hks⟩, rfl, rfl, rfl⟩

/-- Deleting one key from a dict cannot make another lookup succeed. -/
theorem alGet_alDel_of_none {α : Type} (m : List (String × α)) (k key : String)
    (h : alGet m key = none) : alGet (alDel m k) key = none := by
  induction m with
  | nil => rfl
  | cons p rest ih =>
    unfold alGet at h
    by_cases hk : p.1 = key
    · rw [if_pos hk] at h
      exact absurd h (by simp)
    · rw [if_neg hk] at h
      unfold alDel at ih ⊢
      rw [List.filter_cons]
      by_cases hp : p.1 = k
      · rw [if_neg (by simp [hp])]
        exact ih h
      · rw [if_pos (by simp [hp])]
        unfold alGet
        rw [if_neg hk]
        exact ih h

/-- With the interface unset, `_system_int_append_line` is the identity. -/
theorem sysInt_none (b : AppendBuilder) (h : b.system_interface = none) :
    systemIntAppendLine b = .ok b := by
  unfold systemIntAppendLine
  rw [h]
  cases b.dist <;> rfl

/-- With the IP unset, `_system_ip_append_line` is the identity. -/
theorem sysIp_none (b : AppendBuilder) (h : b.system_ip = none) :
    systemIpAppendLine b = b := by
  unfold systemIpAppendLine
  rw [h]
  cases b.dist <;> rfl

/-- With the netmask unset, `_system_mask_append_line` is the identity. -/
theorem sysMask_none (b : AppendBuilder) (h : b.system_netmask = none) :
    systemMaskAppendLine b = b := by
  unfold systemMaskAppendLine
  rw [h]
  cases b.dist <;> rfl

/-- `_system_ip_append_line` only touches the append line. -/
theorem sysIp_data (b : AppendBuilder) : (systemIpAppendLine b).data = b.data := by
  unfold systemIpAppendLine
  cases b.dist <;> cases b.system_ip <;> repeat' first | rfl | split

/-- `_system_mask_append_line` only touches the append line. -/
theorem sysMask_data (b : AppendBuilder) : (systemMaskAppendLine b).data = b.data := by
  unfold systemMaskAppendLine
  cases b.dist <;> cases b.system_netmask <;> repeat' first | rfl | split

/-- `_system_gw_append_line` only touches the append line. -/
theorem sysGw_data (b : AppendBuilder) : (systemGwAppendLine b).data = b.data := by
  unfold systemGwAppendLine
  cases b.dist <;> cases b.system_gw <;> repeat' first | rfl | split

/-- `_system_dns_append_line` only touches the append line. -/
theorem sysDns_data (ed : Bool) (b : AppendBuilder) :
    (systemDnsAppendLine ed b).data = b.data := by
  unfold systemDnsAppendLine
  cases b.dist <;> cases b.system_dns <;> repeat' first | rfl | split | dsimp only

/-- With no interface chosen and neither detection branch applicable,
`_adjust_interface_config` is the identity. -/
theorem adjust_other (b : AppendBuilder) (ifaces : List (String × Iface))
    (hsi : b.system_interface = none)
    (hif : b.data.interfaces = some ifaces)
    (h1 : ¬ (((ifaces.filter (fun p =>
      p.2.management ∧ p.2.interface_type ∈ ["bond", "bridge"])).map Prod.fst).length = 1 ∧
      ((ifaces.filter (fun p =>
        p.2.management ∧ p.2.interface_type ∉ ["bond", "bridge"] ++ slaveTypes)).map
          Prod.fst).length = 0))
    (h2 : ¬ (((ifaces.filter (fun p =>
      p.2.management ∧ p.2.interface_type ∉ ["bond", "bridge"] ++ slaveTypes)).map
        Prod.fst).length = 1 ∧
      ((ifaces.filter (fun p =>
        p.2.management ∧ p.2.interface_type ∈ ["bond", "bridge"])).map
          Prod.fst).length = 0)) :
    adjustInterfaceConfig b = .ok b := by
  unfold adjustInterfaceConfig
  rw [hsi, hif]
  have hreq : req (some ifaces) "interfaces" = Except.ok ifaces := rfl
  rw [hreq]
  simp only [exceptBindOk]
  rw [if_neg h1, if_neg h2]

/-- With exactly one single management candidate and no bond/bridge candidate,
`_adjust_interface_config` selects it. -/
theorem adjust_single (b : AppendBuilder) (ifaces : List (String × Iface))
    (hsi : b.system_interface = none)
    (hif : b.data.interfaces = some ifaces)
    (hsingle : ((ifaces.filter (fun p =>
      p.2.management ∧ p.2.interface_type ∉ ["bond", "bridge"] ++ slaveTypes)).map
        Prod.fst).length = 1)
    (hmulti : ((ifaces.filter (fun p =>
      p.2.management ∧ p.2.interface_type ∈ ["bond", "bridge"])).map
        Prod.fst).length = 0)
    (sel : String)
    (hsel : ((ifaces.filter (fun p =>
      p.2.management ∧ p.2.interface_type ∉ ["bond", "bridge"] ++ slaveTypes)).map
        Prod.fst).headD "" = sel) :
    adjustInterfaceConfig b = .ok { b with system_interface := some (.str sel) } := by
  unfold adjustInterfaceConfig
  rw [hsi, hif]
  have hreq : req (some ifaces) "interfaces" = Except.ok ifaces := rfl
  rw [hreq]
  simp only [exceptBindOk]
  rw [if_neg (fun hc => Nat.one_ne_zero (hc.1.symm.trans hmulti)),
    if_pos (And.intro hsingle hmulti), hsel]

set_option maxHeartbeats 2000000 in
/-- `_get_tcp_ip_config` succeeds whenever `name_servers` is present and the
interface field holds nothing or a string; it only fills builder network
fields, leaving the data, the line and the distro untouched. -/
theorem getTcpIp_ok (b : AppendBuilder) (nsv : KOptVal)
    (hns : b.data.name_servers = some nsv)
    (hsi : b.system_interface = none ∨ ∃ s, b.system_interface = some (.str s)) :
    ∃ b', getTcpIpConfig b = .ok b' ∧
      b'.system_interface = b.system_interface ∧
      b'.data = b.data ∧
      b'.append_line = b.append_line ∧ b'.dist = b.dist := by
  unfold getTcpIpConfig
  rcases hsi with hsi | ⟨s, hsi⟩
  · cases hip : b.system_ip <;>
      cases hnm : b.system_netmask <;>
      cases hgw : b.system_gw <;>
      cases hdns : b.system_dns <;>
      by_cases hgd : b.data.gateway.getD "" ≠ "" <;>
      by_cases hv1 : nsv = KOptVal.str "" <;>
      by_cases hv2 : nsv = KOptVal.flag <;>
      simp only [hsi, hip, hnm, hgw, hdns, hns, hgd, hv1, hv2, exceptPure,
        exceptBindOk, pyStrConcat, reduceIte, String.reduceEq] <;>
      first
        | (subst_vars; refine ⟨_, rfl, ?_, rfl, rfl, rfl⟩; first | rfl | exact hsi)
        | (split <;> first
            | (subst_vars; refine ⟨_, rfl, ?_, rfl, rfl, rfl⟩; first | rfl | exact hsi)
            | (split <;> first
                | (subst_vars; refine ⟨_, rfl, ?_, rfl, rfl, rfl⟩; first | rfl | exact hsi)
                | simp_all)
            | simp_all)
        | simp_all
  · cases hip : b.system_ip <;>
      cases hnm : b.system_netmask <;>
      cases hgw : b.system_gw <;>
      cases hdns : b.system_dns <;>
      by_cases hgd : b.data.gateway.getD "" ≠ "" <;>
      by_cases hipa : (alGet b.data.ip_address s).getD "" ≠ "" <;>
      by_cases hnma : (alGet b.data.netmask s).getD "" ≠ "" <;>
      by_cases hv1 : nsv = KOptVal.str "" <;>
      by_cases hv2 : nsv = KOptVal.flag <;>
      simp only [hsi, hip, hnm, hgw, hdns, hns, hgd, hipa, hnma, hv1, hv2,
        exceptPure, exceptBindOk, pyStrConcat, reduceIte, String.reduceEq] <;>
      first
        | (subst_vars; refine ⟨_, rfl, ?_, rfl, rfl, rfl⟩; first | rfl | exact hsi)
        | (split <;> first
            | (subst_vars; refine ⟨_, rfl, ?_, rfl, rfl, rfl⟩; first | rfl | exact hsi)
            | (split <;> first
                | (subst_vars; refine ⟨_, rfl, ?_, rfl, rfl, rfl⟩; first | rfl | exact hsi)
                | simp_all)
            | simp_all)
        | simp_all

/-- `_generate_append_redhat` succeeds whenever `autoinstall` is present, only
appends to the line, and leaves the rest of the builder untouched. -/
theorem famRedhat_ok (b : AppendBuilder) (ko : List (String × KOptVal)) (ai : String)
    (hko : b.data.kernel_options = some ko)
    (hai : b.data.autoinstall = some ai) :
    ∃ b', generateAppendRedhat b = .ok b' ∧
      b'.dist = b.dist ∧ b'.system_interface = b.system_interface ∧
      b'.data.interfaces = b.data.interfaces ∧
      b'.data.name_servers = b.data.name_servers ∧
      ∃ ko', b'.data.kernel_options = some ko' ∧
        ∀ key, alGet ko key = none → alGet ko' key = none := by
  unfold generateAppendRedhat
  dsimp only [AppendBuilder.proxyD]
  by_cases hp : b.data.proxy.getD "" ≠ "" <;>
    simp only [hp, ne_eq, not_true_eq_false, not_false_eq_true, reduceIte,
      hai, req, exceptBindOk] <;>
    (repeat' split) <;>
    exact ⟨_, rfl, rfl, rfl, rfl, rfl, ko, hko, fun _ h => h⟩

/-- `_generate_append_debian` succeeds whenever `autoinstall` is present, only
appends to the line, and leaves the rest of the builder untouched. -/
theorem famDebian_ok (system : SystemItem) (b : AppendBuilder)
    (ko : List (String × KOptVal)) (ai : String)
    (hko : b.data.kernel_options = some ko)
    (hai : b.data.autoinstall = some ai) :
    ∃ b', generateAppendDebian system b = .ok b' ∧
      b'.dist = b.dist ∧ b'.system_interface = b.system_interface ∧
      b'.data.interfaces = b.data.interfaces ∧
      b'.data.name_servers = b.data.name_servers ∧
      ∃ ko', b'.data.kernel_options = some ko' ∧
        ∀ key, alGet ko key = none → alGet ko' key = none := by
  unfold generateAppendDebian
  cases hd : b.dist with
  | none => exact ⟨_, rfl, hd, rfl, rfl, rfl, ko, hko, fun _ h => h⟩
  | some dist =>
    simp only [hai, req, exceptBindOk]
    dsimp only [AppendBuilder.proxyD]
    by_cases hp : b.data.proxy.getD "" ≠ "" <;>
      simp only [hp, ne_eq, not_true_eq_false, not_false_eq_true, reduceIte] <;>
      exact ⟨_, rfl, rfl, rfl, rfl, rfl, ko, hko, fun _ h => h⟩

/-- The synthesized suse `install=` link succeeds whenever `server` and
`http_port` are present. -/
theorem suseSynthInstall_ok (scheme dn : String) (b : AppendBuilder)
    (srv port : String)
    (hsrv : b.data.server = some srv) (hport : b.data.http_port = some port) :
    ∃ line, suseSynthInstall scheme dn b = .ok { b with append_line := line } := by
  unfold suseSynthInstall
  simp only [hsrv, hport, req, exceptBindOk]
  exact ⟨_, rfl⟩

/-- The `autoyast=` part of the suse append line succeeds whenever
`kernel_options` and `autoinstall` are present, only appends to the line,
and at most deletes the consumed `autoyast` key. -/
theorem suseAutoyastPart_ok (b : AppendBuilder) (ko : List (String × KOptVal))
    (ai : String)
    (hko : b.data.kernel_options = some ko)
    (hai : b.data.autoinstall = some ai) :
    ∃ b', suseAutoyastPart b = .ok b' ∧
      b'.dist = b.dist ∧ b'.system_interface = b.system_interface ∧
      b'.data.interfaces = b.data.interfaces ∧
      b'.data.name_servers = b.data.name_servers ∧
      ∃ ko', b'.data.kernel_options = some ko' ∧
        ∀ key, alGet ko key = none → alGet ko' key = none := by
  unfold suseAutoyastPart
  simp only [AppendBuilder.getKopts, req, hko, exceptBindOk]
  cases hay : alGet ko "autoyast" with
  | none =>
    simp only [hai, req, exceptBindOk]
    exact ⟨_, rfl, rfl, rfl, rfl, rfl, ko, hko, fun _ h => h⟩
  | some v =>
    by_cases hv : v = KOptVal.str ""
    · simp only [hv, ne_eq, not_true_eq_false, reduceIte, hai, req, exceptBindOk]
      exact ⟨_, rfl, rfl, rfl, rfl, rfl, ko, hko, fun _ h => h⟩
    · simp only [ne_eq, hv, not_false_eq_true, reduceIte]
      exact ⟨_, rfl, rfl, rfl, rfl, rfl, alDel ko "autoyast", rfl,
        fun key h => alGet_alDel_of_none ko "autoyast" key h⟩

/-- `_generate_append_suse` succeeds whenever `kernel_options`, `autoinstall`,
`server` and `http_port` are present, only appends to the line, and at most
deletes the consumed `install`/`autoyast` keys. -/
theorem famSuse_ok (scheme : String) (b : AppendBuilder)
    (ko : List (String × KOptVal)) (ai srv port : String)
    (hko : b.data.kernel_options = some ko)
    (hai : b.data.autoinstall = some ai)
    (hsrv : b.data.server = some srv) (hport : b.data.http_port = some port) :
    ∃ b', generateAppendSuse scheme b = .ok b' ∧
      b'.dist = b.dist ∧ b'.system_interface = b.system_interface ∧
      b'.data.interfaces = b.data.interfaces ∧
      b'.data.name_servers = b.data.name_servers ∧
      ∃ ko', b'.data.kernel_options = some ko' ∧
        ∀ key, alGet ko key = none → alGet ko' key = none := by
  unfold generateAppendSuse
  split
  next hd => exact ⟨_, rfl, rfl, rfl, rfl, rfl, ko, hko, fun _ h => h⟩
  next dist hd =>
    dsimp only [AppendBuilder.proxyD]
    generalize hT : (if b.data.proxy.getD "" ≠ "" then
      { b with append_line := b.append_line ++ " proxy=" ++ b.data.proxy.getD "" }
      else b) = b2
    have hdata : b2.data = b.data := by rw [← hT]; split <;> rfl
    have hsi2 : b2.system_interface = b.system_interface := by
      rw [← hT]; split <;> rfl
    have hdist2 : b2.dist = b.dist := by rw [← hT]; split <;> rfl
    have hko2 : b2.data.kernel_options = some ko := by rw [hdata]; exact hko
    have hai2 : b2.data.autoinstall = some ai := by rw [hdata]; exact hai
    have hsrv2 : b2.data.server = some srv := by rw [hdata]; exact hsrv
    have hport2 : b2.data.http_port = some port := by rw [hdata]; exact hport
    have hgk : AppendBuilder.getKopts b2 = .ok ko := by
      unfold AppendBuilder.getKopts
      rw [hko2]
      rfl
    rw [hgk]
    simp only [exceptBindOk]
    cases hay : alGet ko "install" with
    | none =>
      obtain ⟨line, hsyn⟩ := suseSynthInstall_ok scheme dist.name b2 srv port hsrv2 hport2
      rw [hsyn]
      simp only [exceptBindOk]
      obtain ⟨b', hb', h1, h2, h3, h4, ko', hko', hpres⟩ :=
        suseAutoyastPart_ok { b2 with append_line := line } ko ai hko2 hai2
      exact ⟨b', hb', h1.trans hdist2, h2.trans hsi2,
        h3.trans (congrArg ResolvedData.interfaces hdata),
        h4.trans (congrArg ResolvedData.name_servers hdata), ko', hko', hpres⟩
    | some v =>
      by_cases hv : v = KOptVal.str ""
      · simp only [hv, ne_eq, not_true_eq_false, reduceIte]
        obtain ⟨line, hsyn⟩ := suseSynthInstall_ok scheme dist.name b2 srv port hsrv2 hport2
        rw [hsyn]
        simp only [exceptBindOk]
        obtain ⟨b', hb', h1, h2, h3, h4, ko', hko', hpres⟩ :=
          suseAutoyastPart_ok { b2 with append_line := line } ko ai hko2 hai2
        exact ⟨b', hb', h1.trans hdist2, h2.trans hsi2,
          h3.trans (congrArg ResolvedData.interfaces hdata),
          h4.trans (congrArg ResolvedData.name_servers hdata), ko', hko', hpres⟩
      · simp only [ne_eq, hv, not_false_eq_true, reduceIte, exceptBindOk]
        obtain ⟨b', hb', h1, h2, h3, h4, ko', hko', hpres⟩ :=
          suseAutoyastPart_ok
            { b2 with append_line := b2.append_line ++ " install=" ++ pyStr v,
                      data := { b2.data with
                        kernel_options := some (alDel ko "install") } }
            (alDel ko "install") ai rfl hai2
        exact ⟨b', hb', h1.trans hdist2, h2.trans hsi2,
          h3.trans (by simp only [hdata]),
          h4.trans (by simp only [hdata]), ko', hko',
          fun key h => hpres key (alGet_alDel_of_none ko "install" key h)⟩

/-- C1 counterexample: a redhat system whose interfaces hold *two* single
management candidates (the "other combination" of candidate counts: no
interface is auto-selected), yet the compiled append line does contain a
static network token: the global `gateway` value is still emitted by
`_get_tcp_ip_config` / `_system_gw_append_line`, contradicting the claim's
"no static network tokens are emitted". -/
theorem c1_counterexample :
    ((c1CexData.interfaces.getD []).filter (fun p =>
      p.2.management ∧ p.2.interface_type ∉ ["bond", "bridge"] ++ slaveTypes)).length = 2 ∧
    ((c1CexData.interfaces.getD []).filter (fun p =>
      p.2.management ∧ p.2.interface_type ∈ ["bond", "bridge"])).length = 0 ∧
    (generateSystem ⟨"dx", "redhat", "rhel9", "", ""⟩ ⟨"s1", "s1"⟩ false "http"
      (AppendBuilder.init "d" c1CexData)).map Prod.fst =
      .ok "  APPEND initrd=d.img inst.ks=k gateway=10.1.1.1" ∧
    " gateway=10.1.1.1".toList <:+:
      "  APPEND initrd=d.img inst.ks=k gateway=10.1.1.1".toList := by
  refine ⟨by decide, by decide, by rfl, by decide⟩

/-- C1 (amended): management-interface auto-detection in
`_adjust_interface_config`, as invoked from `generate_system` with no
family-specific interface override left in `kernel_options`: with exactly one
bond/bridge management candidate and no single candidate, the selected boot
interface is the slave named `eth0` when one exists, otherwise the first slave
found, with IP and netmask taken from the master's recorded
`ip_address_<master>`/`netmask_<master>` values; with exactly one single
management candidate and no bond/bridge candidate, that interface is selected;
for any other combination of candidate counts nothing is selected and no
interface-derived tokens can be emitted (the interface, IP and netmask
emitters are the identity), but — contrary to the original claim — the global
`gateway` and `name_servers` values are still picked up by
`_get_tcp_ip_config`, so gateway/DNS tokens can still reach the append line. -/
theorem c1_amended_detection (b : AppendBuilder) (ifaces : List (String × Iface))
    (hsi : b.system_interface = none)
    (hif : b.data.interfaces = some ifaces) :
    (∀ master ip nm,
      ((ifaces.filter (fun p =>
        p.2.management ∧ p.2.interface_type ∈ ["bond", "bridge"])).map
          Prod.fst).length = 1 →
      ((ifaces.filter (fun p =>
        p.2.management ∧ p.2.interface_type ∉ ["bond", "bridge"] ++ slaveTypes)).map
          Prod.fst).length = 0 →
      "eth0" ∈ (ifaces.filter (fun p =>
        p.2.interface_type ∈ slaveTypes ∧
        p.2.interface_master = ((ifaces.filter (fun q =>
          q.2.management ∧ q.2.interface_type ∈ ["bond", "bridge"])).map
            Prod.fst).headD "")).map Prod.fst →
      alGet b.data.interface_master "eth0" = some master →
      alGet b.data.ip_address master = some ip →
      alGet b.data.netmask master = some nm →
      adjustInterfaceConfig b = .ok { b with
        system_interface := some (.str "eth0"),
        system_ip := some (.str ip), system_netmask := some (.str nm) }) ∧
    (∀ s rest master ip nm,
      ((ifaces.filter (fun p =>
        p.2.management ∧ p.2.interface_type ∈ ["bond", "bridge"])).map
          Prod.fst).length = 1 →
      ((ifaces.filter (fun p =>
        p.2.management ∧ p.2.interface_type ∉ ["bond", "bridge"] ++ slaveTypes)).map
          Prod.fst).length = 0 →
      (ifaces.filter (fun p =>
        p.2.interface_type ∈ slaveTypes ∧
        p.2.interface_master = ((ifaces.filter (fun q =>
          q.2.management ∧ q.2.interface_type ∈ ["bond", "bridge"])).map
            Prod.fst).headD "")).map Prod.fst = s :: rest →
      "eth0" ∉ s :: rest →
      alGet b.data.interface_master s = some master →
      alGet b.data.ip_address master = some ip →
      alGet b.data.netmask master = some nm →
      adjustInterfaceConfig b = .ok { b with
        system_interface := some (.str s),
        system_ip := some (.str ip), system_netmask := some (.str nm) }) ∧
    (∀ sel,
      ((ifaces.filter (fun p =>
        p.2.management ∧ p.2.interface_type ∉ ["bond", "bridge"] ++ slaveTypes)).map
          Prod.fst).length = 1 →
      ((ifaces.filter (fun p =>
        p.2.management ∧ p.2.interface_type ∈ ["bond", "bridge"])).map
          Prod.fst).length = 0 →
      ((ifaces.filter (fun p =>
        p.2.management ∧ p.2.interface_type ∉ ["bond", "bridge"] ++ slaveTypes)).map
          Prod.fst).headD "" = sel →
      adjustInterfaceConfig b = .ok { b with system_interface := some (.str sel) }) ∧
    (¬ (((ifaces.filter (fun p =>
        p.2.management ∧ p.2.interface_type ∈ ["bond", "bridge"])).map
          Prod.fst).length = 1 ∧
        ((ifaces.filter (fun p =>
          p.2.management ∧ p.2.interface_type ∉ ["bond", "bridge"] ++ slaveTypes)).map
            Prod.fst).length = 0) →
      ¬ (((ifaces.filter (fun p =>
        p.2.management ∧ p.2.interface_type ∉ ["bond", "bridge"] ++ slaveTypes)).map
          Prod.fst).length = 1 ∧
        ((ifaces.filter (fun p =>
          p.2.management ∧ p.2.interface_type ∈ ["bond", "bridge"])).map
            Prod.fst).length = 0) →
      adjustInterfaceConfig b = .ok b ∧
      ∀ nsv g, b.system_ip = none → b.system_netmask = none → b.system_gw = none →
        b.system_dns = none → b.data.name_servers = some nsv →
        nsv ≠ .str "" → nsv ≠ .flag →
        b.data.gateway = some g → g ≠ "" →
        getTcpIpConfig b =
          .ok { b with system_gw := some (.str g), system_dns := some nsv } ∧
        systemIntAppendLine { b with system_gw := some (.str g), system_dns := some nsv } =
          .ok { b with system_gw := some (.str g), system_dns := some nsv } ∧
        systemIpAppendLine { b with system_gw := some (.str g), system_dns := some nsv } =
          { b with system_gw := some (.str g), system_dns := some nsv } ∧
        systemMaskAppendLine { b with system_gw := some (.str g), system_dns := some nsv } =
          { b with system_gw := some (.str g), system_dns := some nsv }) := by
  have hreq : req (some ifaces) "interfaces" = Except.ok ifaces := rfl
  refine ⟨?_, ?_, ?_, ?_⟩
  · intro master ip nm hmulti hsingle heth0 hm hip hnm
    unfold adjustInterfaceConfig
    rw [hsi, hif, hreq]
    simp only [exceptBindOk]
    rw [if_pos (And.intro hmulti hsingle), if_pos heth0]
    simp only [exceptPure, exceptBindOk]
    rw [hm]
    have h2 : req (some master) ("interface_master_" ++ "eth0") = Except.ok master := rfl
    rw [h2]
    simp only [exceptBindOk]
    rw [hip]
    have h3 : req (some ip) ("ip_address_" ++ master) = Except.ok ip := rfl
    rw [h3]
    simp only [exceptBindOk]
    rw [hnm]
    have h4 : req (some nm) ("netmask_" ++ master) = Except.ok nm := rfl
    rw [h4]
    simp only [exceptBindOk]
  · intro s rest master ip nm hmulti hsingle hne hno hm hip hnm
    unfold adjustInterfaceConfig
    rw [hsi, hif, hreq]
    simp only [exceptBindOk]
    rw [if_pos (And.intro hmulti hsingle), hne, if_neg hno]
    simp only [exceptPure, exceptBindOk]
    rw [hm]
    have h2 : req (some master) ("interface_master_" ++ s) = Except.ok master := rfl
    rw [h2]
    simp only [exceptBindOk]
    rw [hip]
    have h3 : req (some ip) ("ip_address_" ++ master) = Except.ok ip := rfl
    rw [h3]
    simp only [exceptBindOk]
    rw [hnm]
    have h4 : req (some nm) ("netmask_" ++ master) = Except.ok nm := rfl
    rw [h4]
    simp only [exceptBindOk]
  · intro sel hsingle hmulti hsel
    exact adjust_single b ifaces hsi hif hsingle hmulti sel hsel
  · intro h1 h2
    refine ⟨adjust_other b ifaces hsi hif h1 h2, ?_⟩
    intro nsv g hip0 hnm0 hgw0 hdns0 hns hne1 hne2 hg hgne
    refine ⟨?_, sysInt_none _ hsi, sysIp_none _ hip0, sysMask_none _ hnm0⟩
    unfold getTcpIpConfig
    simp only [hip0, hsi, hnm0, hgw0, hdns0, hns, hg, Option.getD_some,
      exceptPure, exceptBindOk, ne_eq, hne1, hne2, hgne, not_false_eq_true,
      reduceIte]

/-- Witness for the C1 amended theorem: in the claim's own bonded scenario
(`bond0` with slaves `eth7` and `eth0`) the slave `eth0` is preferred and the
master's IP/netmask are taken. -/
theorem c1_amended_detection_witness :
    adjustInterfaceConfig c1Builder = .ok { c1Builder with
      system_interface := some (.str "eth0"),
      system_ip := some (.str "1.2.3.4"),
      system_netmask := some (.str "255.255.255.0") } :=
  (c1_amended_detection c1Builder
    [("bond0", ⟨true, "bond", ""⟩), ("eth7", ⟨false, "bond_slave", "bond0"⟩),
     ("eth0", ⟨false, "bond_slave", "bond0"⟩)] rfl rfl).1
    "bond0" "1.2.3.4" "255.255.255.0"
    (by decide) (by decide) (by decide) (by decide) (by decide) (by decide)

set_option maxHeartbeats 1000000 in
/-- The tail of `generate_system` after the family-specific part: with
`kernel_options` (holding no interface-override key), `interfaces` (with
neither detection branch applicable) and `name_servers` present and no
interface chosen yet, the static-network pipeline and the emitters cannot
raise. -/
theorem generateSystemTail_ok (ed : Bool) (b2 : AppendBuilder)
    (ko2 : List (String × KOptVal)) (ifaces : List (String × Iface)) (nsv : KOptVal)
    (hko2 : b2.data.kernel_options = some ko2)
    (hk1 : alGet ko2 "ksdevice" = none)
    (hk2 : alGet ko2 "netdevice" = none)
    (hk3 : alGet ko2 "netcfg/choose_interface" = none)
    (hsi2 : b2.system_interface = none)
    (hif2 : b2.data.interfaces = some ifaces)
    (hns2 : b2.data.name_servers = some nsv)
    (hc1 : ¬ (((ifaces.filter (fun p =>
      p.2.management ∧ p.2.interface_type ∈ ["bond", "bridge"])).map
        Prod.fst).length = 1 ∧
      ((ifaces.filter (fun p =>
        p.2.management ∧ p.2.interface_type ∉ ["bond", "bridge"] ++ slaveTypes)).map
          Prod.fst).length = 0))
    (hc2 : ¬ (((ifaces.filter (fun p =>
      p.2.management ∧ p.2.interface_type ∉ ["bond", "bridge"] ++ slaveTypes)).map
        Prod.fst).length = 1 ∧
      ((ifaces.filter (fun p =>
        p.2.management ∧ p.2.interface_type ∈ ["bond", "bridge"])).map
          Prod.fst).length = 0)) :
    ∃ r, (do
      let b ← generateStaticIpBootOptions b2
      let b ← adjustInterfaceConfig b
      let b ← getTcpIpConfig b
      let b ← systemIntAppendLine b
      let b := systemIpAppendLine b
      let b := systemMaskAppendLine b
      let b := systemGwAppendLine b
      let b := systemDnsAppendLine ed b
      let ko ← b.getKopts
      let line := b.append_line ++ add_remaining_kopts ko
      (.ok (line, { b with append_line := line }) :
        Except String (String × AppendBuilder))) = .ok r := by
  unfold generateStaticIpBootOptions
  rw [genIface_id b2 ko2 hko2 hk1 hk2 hk3]
  simp only [exceptBindOk]
  obtain ⟨b3, h3, hst3, _, _⟩ := genIp_shape b2 ko2 hko2
  rw [h3]
  simp only [exceptBindOk]
  obtain ⟨ko3, hko3⟩ := Option.isSome_iff_exists.mp hst3.2.2.2.2.2.2.2
  obtain ⟨b4, h4, hst4, _, _⟩ := genMask_shape b3 ko3 hko3
  rw [h4]
  simp only [exceptBindOk]
  obtain ⟨ko4, hko4⟩ := Option.isSome_iff_exists.mp hst4.2.2.2.2.2.2.2
  obtain ⟨b5, h5, hst5, _, _, _⟩ := genGw_shape b4 ko4 hko4
  rw [h5]
  simp only [exceptBindOk]
  obtain ⟨ko5, hko5⟩ := Option.isSome_iff_exists.mp hst5.2.2.2.2.2.2.2
  obtain ⟨b6, h6, hst6, _, _, _⟩ := genDns_shape b5 ko5 hko5
  rw [h6]
  simp only [exceptBindOk]
  have hsi6 : b6.system_interface = none :=
    hst6.2.1.trans (hst5.2.1.trans (hst4.2.1.trans (hst3.2.1.trans hsi2)))
  have hif6 : b6.data.interfaces = some ifaces :=
    hst6.2.2.1.trans (hst5.2.2.1.trans (hst4.2.2.1.trans (hst3.2.2.1.trans hif2)))
  have hns6 : b6.data.name_servers = some nsv :=
    hst6.2.2.2.1.trans (hst5.2.2.2.1.trans (hst4.2.2.2.1.trans
      (hst3.2.2.2.1.trans hns2)))
  obtain ⟨ko6, hko6⟩ := Option.isSome_iff_exists.mp hst6.2.2.2.2.2.2.2
  rw [adjust_other b6 ifaces hsi6 hif6 hc1 hc2]
  simp only [exceptBindOk]
  obtain ⟨b7, h7, hsi7, hdata7, _, _⟩ := getTcpIp_ok b6 nsv hns6 (Or.inl hsi6)
  rw [h7]
  simp only [exceptBindOk]
  rw [sysInt_none b7 (hsi7.trans hsi6)]
  simp only [exceptBindOk]
  have hkoF : (systemDnsAppendLine ed (systemGwAppendLine (systemMaskAppendLine
      (systemIpAppendLine b7)))).data.kernel_options = some ko6 := by
    rw [sysDns_data, sysGw_data, sysMask_data, sysIp_data, hdata7, hko6]
  have hgkF : AppendBuilder.getKopts (systemDnsAppendLine ed (systemGwAppendLine
      (systemMaskAppendLine (systemIpAppendLine b7)))) = .ok ko6 := by
    unfold AppendBuilder.getKopts
    rw [hkoF]
    rfl
  rw [hgkF]
  simp only [exceptBindOk]
  exact ⟨_, rfl⟩

set_option maxHeartbeats 1000000 in
/-- `generate_system` cannot raise when `kernel_options` (free of
interface-override keys), `autoinstall`, `interfaces` (with neither detection
branch applicable) and `name_servers` are present, the builder starts with no
interface chosen, and — for the suse family — `server` and `http_port` are
present. -/
theorem generateSystem_ok (dist : Distro) (sys : SystemItem) (ed : Bool)
    (scheme : String) (b0 : AppendBuilder) (ko : List (String × KOptVal))
    (ai : String) (ifaces : List (String × Iface)) (nsv : KOptVal)
    (hko : b0.data.kernel_options = some ko)
    (hai : b0.data.autoinstall = some ai)
    (hsi0 : b0.system_interface = none)
    (hif : b0.data.interfaces = some ifaces)
    (hns : b0.data.name_servers = some nsv)
    (hk1 : alGet ko "ksdevice" = none)
    (hk2 : alGet ko "netdevice" = none)
    (hk3 : alGet ko "netcfg/choose_interface" = none)
    (hsuse : dist.breed = "suse" →
      b0.data.server.isSome = true ∧ b0.data.http_port.isSome = true)
    (hc1 : ¬ (((ifaces.filter (fun p =>
      p.2.management ∧ p.2.interface_type ∈ ["bond", "bridge"])).map
        Prod.fst).length = 1 ∧
      ((ifaces.filter (fun p =>
        p.2.management ∧ p.2.interface_type ∉ ["bond", "bridge"] ++ slaveTypes)).map
          Prod.fst).length = 0))
    (hc2 : ¬ (((ifaces.filter (fun p =>
      p.2.management ∧ p.2.interface_type ∉ ["bond", "bridge"] ++ slaveTypes)).map
        Prod.fst).length = 1 ∧
      ((ifaces.filter (fun p =>
        p.2.management ∧ p.2.interface_type ∈ ["bond", "bridge"])).map
          Prod.fst).length = 0)) :
    ∃ r, generateSystem dist sys ed scheme b0 = .ok r := by
  have step : ∀ b1 : AppendBuilder,
      b1.data = b0.data → b1.system_interface = none →
      ∃ r, (do
        let b ←
          if dist.breed = "suse" then generateAppendSuse scheme b1
          else if dist.breed = "redhat" then generateAppendRedhat b1
          else if dist.breed = "ubuntu" ∨ dist.breed = "debian" then
            generateAppendDebian sys b1
          else .ok b1
        let b ← generateStaticIpBootOptions b
        let b ← adjustInterfaceConfig b
        let b ← getTcpIpConfig b
        let b ← systemIntAppendLine b
        let b := systemIpAppendLine b
        let b := systemMaskAppendLine b
        let b := systemGwAppendLine b
        let b := systemDnsAppendLine ed b
        let ko ← b.getKopts
        let line := b.append_line ++ add_remaining_kopts ko
        (.ok (line, { b with append_line := line }) :
          Except String (String × AppendBuilder))) = .ok r := by
    intro b1 hdat hsi1
    have hko1 : b1.data.kernel_options = some ko := by rw [hdat]; exact hko
    have hai1 : b1.data.autoinstall = some ai := by rw [hdat]; exact hai
    have hif1 : b1.data.interfaces = some ifaces := by rw [hdat]; exact hif
    have hns1 : b1.data.name_servers = some nsv := by rw [hdat]; exact hns
    by_cases hbs : dist.breed = "suse"
    · obtain ⟨srv, hsrv⟩ := Option.isSome_iff_exists.mp (hsuse hbs).1
      obtain ⟨port, hport⟩ := Option.isSome_iff_exists.mp (hsuse hbs).2
      have hsrv1 : b1.data.server = some srv := by rw [hdat]; exact hsrv
      have hport1 : b1.data.http_port = some port := by rw [hdat]; exact hport
      obtain ⟨b2, hfam, hd2, hsi2, hif2, hns2, ko2, hko2, hpres2⟩ :=
        famSuse_ok scheme b1 ko ai srv port hko1 hai1 hsrv1 hport1
      simp only [hbs, reduceIte]
      rw [hfam]
      simp only [exceptBindOk]
      exact generateSystemTail_ok ed b2 ko2 ifaces nsv hko2 (hpres2 _ hk1)
        (hpres2 _ hk2) (hpres2 _ hk3) (hsi2.trans hsi1) (hif2.trans hif1)
        (hns2.trans hns1) hc1 hc2
    · by_cases hbr : dist.breed = "redhat"
      · obtain ⟨b2, hfam, hd2, hsi2, hif2, hns2, ko2, hko2, hpres2⟩ :=
          famRedhat_ok b1 ko ai hko1 hai1
        simp only [hbs, hbr, reduceIte]
        rw [hfam]
        simp only [exceptBindOk]
        exact generateSystemTail_ok ed b2 ko2 ifaces nsv hko2 (hpres2 _ hk1)
          (hpres2 _ hk2) (hpres2 _ hk3) (hsi2.trans hsi1) (hif2.trans hif1)
          (hns2.trans hns1) hc1 hc2
      · by_cases hbd : dist.breed = "ubuntu" ∨ dist.breed = "debian"
        · obtain ⟨b2, hfam, hd2, hsi2, hif2, hns2, ko2, hko2, hpres2⟩ :=
            famDebian_ok sys b1 ko ai hko1 hai1
          simp only [hbs, hbr, hbd, reduceIte]
          rw [hfam]
          simp only [exceptBindOk]
          exact generateSystemTail_ok ed b2 ko2 ifaces nsv hko2 (hpres2 _ hk1)
            (hpres2 _ hk2) (hpres2 _ hk3) (hsi2.trans hsi1) (hif2.trans hif1)
            (hns2.trans hns1) hc1 hc2
        · simp only [hbs, hbr, hbd, reduceIte]
          simp only [exceptBindOk]
          exact generateSystemTail_ok ed b1 ko ifaces nsv hko1 hk1 hk2 hk3
            hsi1 hif1 hns1 hc1 hc2
  unfold generateSystem
  exact step _ rfl hsi0

set_option maxHeartbeats 1000000 in
/-- C4 (amended): both structural keys being present is *not* enough — the
compiler also dereferences several nominally optional keys unguarded.  With
`kernel_options` and `autoinstall` present, `generate_profile` cannot raise
for the redhat, ubuntu/debian and unknown families; for the suse family it
additionally needs `server` and `http_port` (dereferenced unguarded when no
`install` override exists).  `generate_system` additionally dereferences
`interfaces` and `name_servers` unguarded, so it cannot raise provided those
are present, no interface-override key is left in `kernel_options`, neither
auto-detection branch applies, and — for suse — `server`/`http_port` are
present.  Missing `proxy`/`gateway` and absent per-interface entries are
genuinely optional: their tokens are simply omitted. -/
theorem c4_amended_no_raise (data : ResolvedData) (ko : List (String × KOptVal))
    (ai : String)
    (hko : data.kernel_options = some ko)
    (hai : data.autoinstall = some ai) :
    (∀ osv proto name, ∃ r,
      generateProfile "redhat" osv proto (AppendBuilder.init name data) = .ok r) ∧
    (∀ breed osv proto name, breed = "ubuntu" ∨ breed = "debian" → ∃ r,
      generateProfile breed osv proto (AppendBuilder.init name data) = .ok r) ∧
    (∀ breed osv proto name, breed ∉ ["suse", "redhat", "ubuntu", "debian"] → ∃ r,
      generateProfile breed osv proto (AppendBuilder.init name data) = .ok r) ∧
    (∀ osv proto name srv port, alGet ko "install" = none →
      data.server = some srv → data.http_port = some port → ∃ r,
      generateProfile "suse" osv proto (AppendBuilder.init name data) = .ok r) ∧
    (∀ dist sys ed scheme name ifaces nsv,
      data.interfaces = some ifaces →
      data.name_servers = some nsv →
      alGet ko "ksdevice" = none →
      alGet ko "netdevice" = none →
      alGet ko "netcfg/choose_interface" = none →
      (dist.breed = "suse" →
        data.server.isSome = true ∧ data.http_port.isSome = true) →
      ¬ (((ifaces.filter (fun p =>
        p.2.management ∧ p.2.interface_type ∈ ["bond", "bridge"])).map
          Prod.fst).length = 1 ∧
        ((ifaces.filter (fun p =>
          p.2.management ∧ p.2.interface_type ∉ ["bond", "bridge"] ++ slaveTypes)).map
            Prod.fst).length = 0) →
      ¬ (((ifaces.filter (fun p =>
        p.2.management ∧ p.2.interface_type ∉ ["bond", "bridge"] ++ slaveTypes)).map
          Prod.fst).length = 1 ∧
        ((ifaces.filter (fun p =>
          p.2.management ∧ p.2.interface_type ∈ ["bond", "bridge"])).map
            Prod.fst).length = 0) →
      ∃ r, generateSystem dist sys ed scheme (AppendBuilder.init name data) = .ok r) := by
  refine ⟨?_, ?_, ?_, ?_, ?_⟩
  · intro osv proto name
    unfold generateProfile
    dsimp only [AppendBuilder.proxyD, AppendBuilder.init]
    by_cases hp : data.proxy.getD "" ≠ "" <;>
      by_cases hosv : osv ∈ ["rhel4", "rhel5", "rhel6", "fedora16"] <;>
      simp only [hp, hosv, ne_eq, not_true_eq_false, not_false_eq_true,
        String.reduceEq, reduceIte, hai, req, exceptBindOk,
        AppendBuilder.getKopts, hko] <;>
      exact ⟨_, rfl⟩
  · intro breed osv proto name hb
    unfold generateProfile
    dsimp only [AppendBuilder.proxyD, AppendBuilder.init]
    rcases hb with hb | hb <;> subst hb <;>
      by_cases hp : data.proxy.getD "" ≠ "" <;>
      simp only [hp, ne_eq, not_true_eq_false, not_false_eq_true, or_self,
        or_true, true_or, String.reduceEq, reduceIte, hai, req, exceptBindOk,
        AppendBuilder.getKopts, AppendBuilder.proxyD, hko] <;>
      exact ⟨_, rfl⟩
  · intro breed osv proto name hnb
    have h1 : ¬ breed = "suse" := fun h => hnb (by rw [h]; decide)
    have h2 : ¬ breed = "redhat" := fun h => hnb (by rw [h]; decide)
    have h3 : ¬ (breed = "ubuntu" ∨ breed = "debian") := fun hc =>
      hc.elim (fun h => hnb (by rw [h]; decide)) (fun h => hnb (by rw [h]; decide))
    unfold generateProfile
    simp only [h1, h2, h3, reduceIte, exceptBindOk, AppendBuilder.getKopts,
      AppendBuilder.init, req, hko]
    exact ⟨_, rfl⟩
  · intro osv proto name srv port hinst hsrv hport
    unfold generateProfile
    dsimp only [AppendBuilder.proxyD, AppendBuilder.init]
    by_cases hp : data.proxy.getD "" ≠ "" <;>
      simp only [hp, ne_eq, not_true_eq_false, not_false_eq_true,
        String.reduceEq, reduceIte, AppendBuilder.getKopts, req, hko,
        exceptBindOk, hinst, profileSynthInstall, hsrv, hport,
        suseAutoyastPart, AppendBuilder.proxyD] <;>
      cases hay : alGet ko "autoyast" <;>
      simp only [hay, hai, req, exceptBindOk, hko, AppendBuilder.getKopts] <;>
      first
        | exact ⟨_, rfl⟩
        | (rename_i v;
           by_cases hv : v = KOptVal.str "" <;>
             simp only [hv, ne_eq, not_true_eq_false, not_false_eq_true,
               reduceIte, hai, req, exceptBindOk, hko, AppendBuilder.getKopts] <;>
             exact ⟨_, rfl⟩)
  · intro dist sys ed scheme name ifaces nsv hif hns hk1 hk2 hk3 hsuse hc1 hc2
    exact generateSystem_ok dist sys ed scheme (AppendBuilder.init name data)
      ko ai ifaces nsv hko hai rfl hif hns hk1 hk2 hk3 hsuse hc1 hc2

/-- Witness for the C4 amended theorem: with both structural keys, server,
http port, name servers and an empty interface dict present, a redhat system
compiles without raising. -/
theorem c4_amended_no_raise_witness :
    ∃ r, generateSystem ⟨"dx", "redhat", "rhel9", "", ""⟩ ⟨"s1", "s1"⟩ false "http"
      (AppendBuilder.init "d" c4Data) = .ok r :=
  (c4_amended_no_raise c4Data [] "a" rfl rfl).2.2.2.2
    ⟨"dx", "redhat", "rhel9", "", ""⟩ ⟨"s1", "s1"⟩ false "http" "d" [] (.list ["1.1.1.1"])
    rfl rfl (by decide) (by decide) (by decide)
    (fun h => absurd h (by decide)) (by decide) (by decide)
